import Mathlib

/-!
# Verification of the prep-agent chess pipeline

A shallow embedding of the analytical core of the `prepagent-chess`
repository (modules `prep_agent/scoring.py`, `prep_agent/blunders.py`,
`prep_agent/ingest.py`, `prep_agent/openings.py`, `prep_agent/planner.py`,
`prep_agent/select.py`, `prep_agent/prefs.py`, `prep_agent/types.py`),
together with theorems settling the frozen claims about that code.

Modelling conventions:
* Python `str` is modelled as `List Char` (`Str`), so that all string
  operations (lower-casing, prefix and substring tests, joining) are
  structurally recursive and kernel-computable.
* Python `float` arithmetic is modelled over `ℚ`.  All quantities the
  code manipulates (ratios of small integers, averages of centipawn
  integers, fixed weights) are exactly representable, so `ℚ` is the
  idealised semantics of the float computations.  Python's
  `round(x, n)` is modelled as exact decimal round-half-even.
* Python `int` is modelled as `ℤ` (or `ℕ` where the source value is a
  count/length and can never be negative).
* Calls into the `python-chess` library and the external engine are
  oracle inputs: the per-move data the library hands back (`MoveInfo`)
  and the per-position engine evaluations (`EvalResult`) are parameters
  of the embedded functions, while everything the repository itself
  computes from them is translated faithfully.
* Presentation-only string formatting (`title`, `note`, `headline`
  fields built with f-string float formatting, and the markdown report)
  is omitted from the embedded records; no claim mentions it.
-/

namespace PrepAgent

/-- Python `str`, modelled as a list of characters. -/
abbrev Str := List Char

/-- `"..."​.lower()` — Python lower-casing (ASCII-faithful). -/
def toLowerS (s : Str) : Str := s.map Char.toLower

/-- `s.startswith(pre)`. -/
def startsWithS (s pre : Str) : Bool := pre.isPrefixOf s

/-- Python `needle in hay` — contiguous substring test. -/
def containsS (hay needle : Str) : Bool :=
  hay.tails.any (fun t => needle.isPrefixOf t)

/-- `" ".join(xs)`. -/
def joinSpace (xs : List Str) : Str := List.intercalate [' '] xs

/-- Python `s.strip()` (whitespace trim at both ends). -/
def stripS (s : Str) : Str :=
  ((s.dropWhile Char.isWhitespace).reverse.dropWhile Char.isWhitespace).reverse

/-- Convenience: a `Str` literal from a Lean string literal. -/
def strL (s : String) : Str := s.data

/-- `types.Side`. -/
inductive Side where
  | white
  | black
deriving DecidableEq

/-- `types.Severity`. -/
inductive Severity where
  | inaccuracy
  | mistake
  | blunder
deriving DecidableEq

/-- `prefs.RiskProfile`. -/
inductive RiskProfile where
  | solid
  | practical
  | sharp
deriving DecidableEq

/-- `prefs.TimeBudget`. -/
inductive TimeBudget where
  | quick
  | normal
  | deep
deriving DecidableEq

/-- `types.PrepConfig` (engine-process knobs that never influence the
embedded computations are kept for fidelity). -/
structure PrepConfig where
  stockfish_path : Str
  engine_movetime_ms : ℤ
  engine_threads : ℤ
  engine_hash_mb : ℤ
  max_games : Option ℕ
  max_lies_per_game : Option ℕ
  opening_plies : ℕ
  mistake_drop_cp : ℤ
  blunder_drop_cp : ℤ
  turning_point_per_side : ℤ
  dedupe_by_pos_key : Bool
  only_time_controls : Option (List Str)
  since_date : Option Str
deriving DecidableEq

/-- `types.GameMeta`. -/
structure GameMeta where
  game_id : Str
  event : Option Str
  site : Option Str
  date : Option Str
  white : Option Str
  black : Option Str
  result : Option Str
  time_control : Option Str
  white_elo : Option ℤ
  black_elo : Option ℤ
  opponent_name : Option Str
  opponent_side : Option Side
deriving DecidableEq

/-- `types.PlyRecord`. -/
structure PlyRecord where
  game_id : Str
  ply : ℕ
  side_who_moved : Side
  fen_before : Str
  fen_after : Str
  move_uci : Str
  move_san : Str
  pos_key : Str
  opening_key : Str
deriving DecidableEq

/-- `types.OpeningBranchStat`. -/
structure OpeningBranchStat where
  side : Side
  moves_san : List Str
  games : ℕ
  score : ℚ
deriving DecidableEq

/-- `types.OpeningProfile`. -/
structure OpeningProfile where
  opening_plies : ℕ
  opponent_name : Option Str
  as_white_top : List OpeningBranchStat
  as_black_vs_e4_top : List OpeningBranchStat
  as_black_vs_d4_top : List OpeningBranchStat
deriving DecidableEq

/-- `types.BlunderEvent`. -/
structure BlunderEvent where
  game_id : Str
  ply : ℕ
  opponent_side : Side
  fen_before : Str
  pos_key : Str
  opening_key : Str
  playing_move_uci : Str
  playing_move_san : Str
  drop_cp_equiv : ℤ
  severity : Severity
  refutation_pv_uci : List Str
  refutation_first_uci : Option Str
deriving DecidableEq

/-- `types.TurningPoint`, without the presentation-only `title`/`note`
strings (built by f-string float formatting in the source). -/
structure TurningPoint where
  fen : Str
  pos_key : Str
  opening_key : Str
  opoonent_mistake_move_san : Str
  opoonent_mistake_move_uci : Str
  severity : Severity
  drop_cp_equiv : ℤ
  punish_move_uci : Option Str
  refutation_line_uci : List Str
deriving DecidableEq

/-- `types.TargetPlan`, without the presentation-only `headline`. -/
structure TargetPlan where
  opponent_side : Side
  likely_openings : List OpeningBranchStat
  turning_points : List TurningPoint
deriving DecidableEq

/-- `types.PrepReport`. -/
structure PrepReport where
  created_at : Str
  games_ingested : ℕ
  opening_profile : OpeningProfile
  blunders : List BlunderEvent
  targets : List TargetPlan
  opponent_name : Option Str
deriving DecidableEq

/-- `prefs.PrepPrefs`.  `focus` is one of the strings `"both"`,
`"opp_as_white"`, `"opp_as_black"` exactly as in the source. -/
structure PrepPrefs where
  focus : Str
  risk : RiskProfile
  time_budget : TimeBudget
  as_white_first_moves : List Str
  as_black_vs_e4 : List Str
  as_black_vs_d4 : List Str
  banned_branch_keywords : List Str
  max_targets_per_side : ℤ
  max_turning_points_per_side : ℤ
  notes : Str
deriving DecidableEq

/-- `PrepPrefs.normalize`. -/
def PrepPrefs.normalize (p : PrepPrefs) : PrepPrefs :=
  { p with
    as_white_first_moves :=
      (p.as_white_first_moves.map stripS).filter (fun m => m ≠ []),
    as_black_vs_e4 :=
      (p.as_black_vs_e4.map stripS).filter (fun m => m ≠ []),
    as_black_vs_d4 :=
      (p.as_black_vs_d4.map stripS).filter (fun m => m ≠ []),
    banned_branch_keywords :=
      (p.banned_branch_keywords.map stripS).filter (fun k => k ≠ []),
    max_targets_per_side := max 1 p.max_targets_per_side,
    max_turning_points_per_side := max 1 p.max_turning_points_per_side,
    notes := stripS p.notes }

/-- `session_types.BranchScore`. -/
structure BranchScore where
  branch_moves_san : List Str
  opponent_side : Side
  games : ℕ
  frequency_score : ℚ
  weakness_score : ℚ
  fit_score : ℚ
  total_score : ℚ
  avg_drop_cp : ℚ
  blunder_rate : ℚ
deriving DecidableEq

/-- `session_types.LinePark`, without the presentation-only `headline`. -/
structure LinePark where
  oppoennt_side : Side
  branch_moves_san : List Str
  critical_positions : List TurningPoint
deriving DecidableEq

/-- `session_types.PlannedPrep`. -/
structure PlannedPrep where
  opponent_name : Option Str
  pref : PrepPrefs
  ranked_branches : List BranchScore
  chosen_targets : List LinePark
deriving DecidableEq

/-! ## Decimal rounding (Python `round(x, d)` on the idealised value) -/

/-- Round-half-even to the nearest integer. -/
def rndHalfEven (x : ℚ) : ℤ :=
  let f := ⌊x⌋
  let r := x - f
  if r < 1/2 then f
  else if 1/2 < r then f + 1
  else if 2 ∣ f then f else f + 1

/-- Python `round(x, d)` on the idealised rational value
(decimal round-half-even). -/
def roundTo (d : ℕ) (x : ℚ) : ℚ :=
  (rndHalfEven (x * (10 ^ d : ℕ)) : ℚ) / (10 ^ d : ℕ)

/-! ## `scoring.py` -/

/-- `scoring._WEIGHTS` — weight tables `(freq_w, weak_w, fit_w)` by risk
profile. -/
def weightsOf : RiskProfile → ℚ × ℚ × ℚ
  | .solid => (0.50, 0.20, 0.30)
  | .practical => (0.40, 0.35, 0.25)
  | .sharp => (0.25, 0.50, 0.25)

/-- `scoring._branch_text` as a function of the move list:
`" ".join(moves_san).lower()`. -/
def movesText (moves_san : List Str) : Str :=
  toLowerS (joinSpace moves_san)

/-- `scoring._is_banned` as a function of the move list. -/
def movesBanned (moves_san : List Str) (banned_keywords_lc : List Str) : Bool :=
  if banned_keywords_lc = [] then false
  else banned_keywords_lc.any (fun k => containsS (movesText moves_san) k)

/-- `scoring._is_banned` (reads only `branch.moves_san`). -/
def isBanned (branch : OpeningBranchStat) (banned_keywords_lc : List Str) : Bool :=
  movesBanned branch.moves_san banned_keywords_lc

/-- `scoring._fits_repertoire` as a function of the move list. -/
def movesFit (moves_san : List Str) (opponent_side : Side)
    (prefs : PrepPrefs) : Bool :=
  match moves_san with
  | [] => true
  | first :: _ =>
    if opponent_side = Side.black then
      prefs.as_white_first_moves.any
        (fun x => startsWithS (toLowerS first) (toLowerS x))
    else
      true

/-- `scoring._fits_repertoire` (reads only `branch.moves_san`). -/
def fitsRepertoire (branch : OpeningBranchStat) (opponent_side : Side)
    (prefs : PrepPrefs) : Bool :=
  movesFit branch.moves_san opponent_side prefs

/-- Spec-side predicate (from the claim's wording, not from the source):
"the branch's first move matches one of the user's declared White first
moves by case-insensitive prefix".  An empty branch has no first move,
so this is `false` on `[]`. -/
def firstMoveMatches (moves_san : List Str) (firsts : List Str) : Bool :=
  match moves_san with
  | [] => false
  | first :: _ =>
    firsts.any (fun x => startsWithS (toLowerS first) (toLowerS x))

/-- The `matching` filter inside `scoring._weakness_for_branch`. -/
def weaknessMatching (branch_key : Str) (opponent_side : Side)
    (blunders : List BlunderEvent) : List BlunderEvent :=
  blunders.filter
    (fun b => decide (b.opponent_side = opponent_side) &&
      startsWithS b.opening_key branch_key)

/-- `scoring._weakness_for_branch`: returns
`(weakness_score, blunder_rate, avg_drop_cp)`. -/
def weaknessForBranch (branch_key : Str) (opponent_side : Side)
    (games_in_branch : ℕ) (blunders : List BlunderEvent) : ℚ × ℚ × ℚ :=
  let matching := weaknessMatching branch_key opponent_side blunders
  if matching = [] ∨ games_in_branch = 0 then (0, 0, 0)
  else
    let blunder_rate : ℚ := (matching.length : ℚ) / (games_in_branch : ℚ)
    let avg_drop_cp : ℚ :=
      (matching.map (fun b => (b.drop_cp_equiv : ℚ))).sum / (matching.length : ℚ)
    (0.5 * min 1 (blunder_rate / 0.5) + 0.5 * min 1 (avg_drop_cp / 300),
      blunder_rate, avg_drop_cp)

/-! ## Stable descending sort

Python's `list.sort(key=…, reverse=True)` is a stable sort placing
larger keys first and preserving the original order of key-ties.  A
stable sort is uniquely determined by its comparison, so the insertion
sort below is extensionally the sort the source performs. -/

/-- Insert `x` (an element originally preceding every element of the
list) in front of the first element it is greater-or-equal to. -/
def insertByGe (ge : α → α → Bool) (x : α) : List α → List α
  | [] => [x]
  | y :: ys => if ge x y then x :: y :: ys else y :: insertByGe ge x ys

/-- Stable descending sort: `ge a b` must mean "key of `a` ≥ key of `b`". -/
def sortStableDesc (ge : α → α → Bool) : List α → List α
  | [] => []
  | x :: xs => insertByGe ge x (sortStableDesc ge xs)

/-! ## `scoring.score_branches` -/

/-- `max(b.games for b in branches)` (the source only evaluates this on
a nonempty list, where the `0` seed is absorbed). -/
def maxGames (branches : List OpeningBranchStat) : ℕ :=
  (branches.map (fun b => b.games)).foldl max 0

/-- The body of the `for br in branches` loop in `score_branches`,
producing one `BranchScore`. -/
def scoreBranch (opponent_side : Side) (max_games : ℕ) (banned_lc : List Str)
    (prefs : PrepPrefs) (w : ℚ × ℚ × ℚ) (blunders : List BlunderEvent)
    (br : OpeningBranchStat) : BranchScore :=
  let freq_score : ℚ := if max_games > 0 then (br.games : ℚ) / (max_games : ℚ) else 0
  let br_key := stripS (joinSpace br.moves_san)
  let wr := weaknessForBranch br_key opponent_side br.games blunders
  let fit : ℚ :=
    if isBanned br banned_lc then 0
    else if fitsRepertoire br opponent_side prefs then 1
    else 0
  let total := w.1 * freq_score + w.2.1 * wr.1 + w.2.2 * fit
  { branch_moves_san := br.moves_san
    opponent_side := opponent_side
    games := br.games
    frequency_score := roundTo 4 freq_score
    weakness_score := roundTo 4 wr.1
    fit_score := fit
    total_score := roundTo 4 total
    avg_drop_cp := roundTo 1 wr.2.2
    blunder_rate := roundTo 4 wr.2.1 }

/-- The `side_branches` list collected in `score_branches`, respecting
the focus filter.  Note the source merges the two opponent-as-Black
lists into a single entry. -/
def sideBranches (report : PrepReport) (prefs : PrepPrefs) :
    List (Side × List OpeningBranchStat) :=
  (if prefs.focus = strL "both" ∨ prefs.focus = strL "opp_as_white" then
    [(Side.white, report.opening_profile.as_white_top)]
  else []) ++
  (if prefs.focus = strL "both" ∨ prefs.focus = strL "opp_as_black" then
    [(Side.black,
      report.opening_profile.as_black_vs_e4_top ++
      report.opening_profile.as_black_vs_d4_top)]
  else [])

/-- `scoring.score_branches`. -/
def score_branches (report : PrepReport) (prefs0 : PrepPrefs) : List BranchScore :=
  let prefs := prefs0.normalize
  let w := weightsOf prefs.risk
  let banned_lc := prefs.banned_branch_keywords.map toLowerS
  let results :=
    (sideBranches report prefs).flatMap (fun sb =>
      if sb.2 = [] then []
      else sb.2.map (scoreBranch sb.1 (maxGames sb.2) banned_lc prefs w report.blunders))
  sortStableDesc (fun a b => decide (b.total_score ≤ a.total_score)) results

/-! ## `blunders.py` -/

/-- The Python exceptions the embedded code can raise. -/
inductive PyError where
  | typeError
  | attributeError
  | keyError
deriving DecidableEq

/-- The engine's evaluation of one position, already oriented from the
opponent's point of view by `_score_to_cp_mate_pov`: exactly one of
`cp`/`mate` is meaningful in the source's usage, both carried here. -/
structure EvalResult where
  cp : Option ℤ
  mate : Option ℤ
deriving DecidableEq

/-- `blunders._mate_or_cp_to_numeric`. -/
def mate_or_cp_to_numeric (cp : Option ℤ) (mate_in : Option ℤ) : ℤ :=
  match mate_in with
  | some m => (if m > 0 then 1 else -1) * (100000 - 1000 * |m|)
  | none => cp.getD 0

/-- The per-ply body of the loop in `blunders.extract_opponent_blunders`:
gate on a resolved opponent side and on the mover, compute the
normalized evaluation drop, and discard sub-threshold drops.  A
retained drop reaches the `BlunderEvent(...)` construction at
blunders.py:76–89, which passes the keywords `played_move_uci` /
`played_move_san` although `types.BlunderEvent` declares
`playing_move_uci` / `playing_move_san` — a guaranteed `TypeError`,
modelled as the error outcome.  (The source computes the severity and
queries the engine for a refutation line before that point, but neither
escapes the crash.)  Engine answers (`before`, `after`, the refutation
pv) are oracle inputs; the pv parameter is kept for interface fidelity
although the crash makes it unobservable. -/
def plyEvent (opponent_side : Option Side) (pr : PlyRecord)
    (before after : EvalResult) (refutation_pv : List Str)
    (cfg : PrepConfig) : Except PyError (Option BlunderEvent) :=
  match opponent_side with
  | none => .ok none
  | some s =>
    if pr.side_who_moved ≠ s then .ok none
    else
      let before_num := mate_or_cp_to_numeric before.cp before.mate
      let after_num := mate_or_cp_to_numeric after.cp after.mate
      let drop := before_num - after_num
      if drop < cfg.mistake_drop_cp then .ok none
      else .error .typeError

/-- The ply loop of `blunders.extract_opponent_blunders`: a ply whose
game id is missing from `meta_by_id` raises a `KeyError`; a retained
event raises the constructor `TypeError` of `plyEvent`; either
exception aborts the whole run (the `finally` only closes the engine).
Only if no ply retains an event does the loop reach the final sort. -/
def extractLoop (games : List GameMeta)
    (evalOracle : PlyRecord → EvalResult × EvalResult × List Str)
    (cfg : PrepConfig) :
    List PlyRecord → List BlunderEvent → Except PyError (List BlunderEvent)
  | [], acc =>
    .ok (sortStableDesc (fun a b => decide (b.drop_cp_equiv ≤ a.drop_cp_equiv)) acc)
  | pr :: rest, acc =>
    match (games.reverse).find? (fun g => decide (g.game_id = pr.game_id)) with
    | none => .error .keyError
    | some meta =>
      let r := evalOracle pr
      match plyEvent meta.opponent_side pr r.1 r.2.1 r.2.2 cfg with
      | .error e => .error e
      | .ok none => extractLoop games evalOracle cfg rest acc
      | .ok (some ev) => extractLoop games evalOracle cfg rest (acc ++ [ev])

/-- `blunders.extract_opponent_blunders`, with the engine calls replaced
by an oracle.  Because every retained event dies in the `BlunderEvent`
constructor, this returns `.ok []` or an error — never a nonempty
event list. -/
def extract_opponent_blunders (games : List GameMeta) (plies : List PlyRecord)
    (evalOracle : PlyRecord → EvalResult × EvalResult × List Str)
    (cfg : PrepConfig) : Except PyError (List BlunderEvent) :=
  extractLoop games evalOracle cfg plies []

/-! ## Opponent-side resolution in `ingest.ingest_pgns` -/

/-- Python truthiness of an optional string. -/
def truthyS : Option Str → Bool
  | none => false
  | some s => s ≠ []

/-- The opponent-resolution block of `ingest.ingest_pgns`: the White
header is tested first, the Black header only in the `elif`. -/
def resolveOpponent (opponent_name : Option Str) (wh bl : Option Str) :
    Option (Side × Str) :=
  if truthyS opponent_name then
    let h := toLowerS (opponent_name.getD [])
    if truthyS wh && containsS (toLowerS (wh.getD [])) h then
      some (Side.white, wh.getD [])
    else if truthyS bl && containsS (toLowerS (bl.getD [])) h then
      some (Side.black, bl.getD [])
    else none
  else none

/-! ## The ply walk of `ingest.ingest_pgns` -/

/-- The per-move data the `python-chess` library provides while the
mainline of one game is walked: SAN and UCI encodings, the serialized
positions around the move, the clock-stripped position key
(`pos_key_from_board`), and the side to move. -/
structure MoveInfo where
  san : Str
  uci : Str
  fen_before : Str
  fen_after : Str
  pos_key : Str
  side_who_moved : Side
deriving DecidableEq

/-- `if cfg.max_lies_per_game and ply >= cfg.max_lies_per_game: break`
(`None` and `0` are both falsy). -/
def maxLiesHit (max_lies : Option ℕ) (ply : ℕ) : Bool :=
  match max_lies with
  | none => false
  | some n => decide (n ≠ 0) && decide (ply ≥ n)

/-- The `while node.variations` loop of `ingest.ingest_pgns` for one
game: `opening_moves_san` and `ply` are the loop state, one `PlyRecord`
is emitted per move, the opening key is the join of the truncated
accumulator after the current move was (conditionally) appended. -/
def walkGameAux (gid : Str) (d : ℕ) (max_lies : Option ℕ) :
    List MoveInfo → List Str → ℕ → List PlyRecord
  | [], _, _ => []
  | mv :: rest, opening_moves_san, ply =>
    let ply' := ply + 1
    let opening' :=
      if ply' ≤ d then opening_moves_san ++ [mv.san] else opening_moves_san
    let r : PlyRecord :=
      { game_id := gid
        ply := ply'
        side_who_moved := mv.side_who_moved
        fen_before := mv.fen_before
        fen_after := mv.fen_after
        move_uci := mv.uci
        move_san := mv.san
        pos_key := mv.pos_key
        opening_key := joinSpace opening' }
    r :: (if maxLiesHit max_lies ply' then []
          else walkGameAux gid d max_lies rest opening' ply')

/-- The ply records `ingest_pgns` emits for one game. -/
def walkGame (gid : Str) (moves : List MoveInfo) (cfg : PrepConfig) :
    List PlyRecord :=
  walkGameAux gid cfg.opening_plies cfg.max_lies_per_game moves [] 0

/-! ## Game-id computation of `ingest.ingest_pgns` -/

/-- Decimal rendering of a natural number, as Python's f-string does. -/
def natDecChars (n : ℕ) : Str :=
  if n = 0 then ['0'] else (Nat.digits 10 n).reverse.map Nat.digitChar

/-- `f"game_{idx}_{len(games)}"`. -/
def fallbackGameId (idx gamesLen : ℕ) : Str :=
  strL "game_" ++ natDecChars idx ++ strL "_" ++ natDecChars gamesLen

/-- `headers.get("Site") or f"game_{idx}_{len(games)}"` — the string the
source feeds to `hashlib.md5(...)[:12]`.  The digest itself is an
injective-unknown pure function of this string, so two games with equal
id-sources necessarily receive the same `game_id`. -/
def gameIdSource (site : Option Str) (idx gamesLen : ℕ) : Str :=
  match site with
  | some s => if s = [] then fallbackGameId idx gamesLen else s
  | none => fallbackGameId idx gamesLen

/-- The digest inputs for the consecutive games of one PGN text, whose
batch positions start at `g0` (`len(games)` grows by one per game). -/
def gameIdSources (sites : List (Option Str)) (idx g0 : ℕ) : List Str :=
  sites.enum.map (fun p => gameIdSource p.2 idx (g0 + p.1))

/-! ## Turning-point selection loops (`planner.py` / `select.py`) -/

/-- `planner._blunder_to_turning_point`, presentation strings omitted.
(`select.build_targets` attempts an analogous construction but reads
`b.played_move_san` / `b.played_move_uci` — attributes `BlunderEvent`
does not declare — and passes the keyword `opening_mistake_move_san`,
a field `TurningPoint` does not declare; that path crashes and is
modelled separately by `selectLoop`.) -/
def blunderToTurningPoint (b : BlunderEvent) : TurningPoint :=
  { fen := b.fen_before
    pos_key := b.pos_key
    opening_key := b.opening_key
    opoonent_mistake_move_san := b.playing_move_san
    opoonent_mistake_move_uci := b.playing_move_uci
    severity := b.severity
    drop_cp_equiv := b.drop_cp_equiv
    punish_move_uci := b.refutation_first_uci
    refutation_line_uci := b.refutation_pv_uci }

/-- The turning-point collection loop of `planner.build_planned_prep`
in its general shape: skip events failing the match predicate,
optionally skip events whose position key was already used, otherwise
append and record the key, and break immediately after the appended
count reaches `cap`.  (This is also the evident intent of the loop in
`select.build_targets`, which instead dies on undeclared attribute
names — see `selectLoop`.) -/
def tpLoop (matchp : BlunderEvent → Bool) (dedupe : Bool) (cap : ℤ) :
    List BlunderEvent → List Str → ℕ → List TurningPoint
  | [], _, _ => []
  | b :: rest, seen, n =>
    if matchp b = false then tpLoop matchp dedupe cap rest seen n
    else if dedupe && decide (b.pos_key ∈ seen) then
      tpLoop matchp dedupe cap rest seen n
    else
      let tp := blunderToTurningPoint b
      if (n + 1 : ℤ) ≥ cap then [tp]
      else tp :: tpLoop matchp dedupe cap rest (b.pos_key :: seen) (n + 1)

/-- The `critical_positions` loop of `planner.build_planned_prep`
(lines 58–73): filter by side and branch-key prefix (an empty branch
key, being falsy, matches everything), always deduplicate by position
key, cap at `prefs.max_turning_points_per_side`. -/
def plannerTPs (blunders : List BlunderEvent) (side : Side) (br_key : Str)
    (cap : ℤ) : List TurningPoint :=
  tpLoop
    (fun b => decide (b.opponent_side = side) &&
      (decide (br_key = []) || startsWithS b.opening_key br_key))
    true cap blunders [] 0

/-- The turning-point loop of `select.build_targets` (lines 31–51),
with its fatal attribute errors modelled: the `by_side` defaultdict
grouping is an order-preserving filter; deduplication is gated on
`cfg.dedupe_by_pos_key`; and the first matching, non-deduplicated event
evaluates `b.played_move_san` — an attribute `BlunderEvent` does not
declare — raising `AttributeError` before any turning point is
appended.  (The `TurningPoint(opening_mistake_move_san=…)` keyword and
the `cfg.max_turning_points_per_side` cap read — `PrepConfig` declares
`turning_point_per_side` — are equally undeclared but unreachable.) -/
def selectLoop (side : Side) (dedupe : Bool) :
    List BlunderEvent → List Str → Except PyError (List TurningPoint)
  | [], _ => .ok []
  | b :: rest, seen =>
    if b.opponent_side ≠ side then selectLoop side dedupe rest seen
    else if dedupe && decide (b.pos_key ∈ seen) then
      selectLoop side dedupe rest seen
    else .error .attributeError

/-- One side's iteration of `select.build_targets`: rank the side's
likely openings by game count (stable, descending, top 3), run the
turning-point loop, and emit a target only when both lists are
nonempty. -/
def targetForSide (profile : OpeningProfile) (blunders : List BlunderEvent)
    (cfg : PrepConfig) (side : Side) : Except PyError (Option TargetPlan) :=
  let buckets :=
    if side = Side.white then profile.as_white_top
    else profile.as_black_vs_e4_top ++ profile.as_black_vs_d4_top
  let likely := (sortStableDesc (fun a b => decide (b.games ≤ a.games)) buckets).take 3
  match selectLoop side cfg.dedupe_by_pos_key blunders [] with
  | .error e => .error e
  | .ok chosen =>
    .ok (if likely = [] ∨ chosen = [] then none
         else some { opponent_side := side
                     likely_openings := likely
                     turning_points := chosen })

/-- `select.build_targets` (lines 26–51): White side first, then Black.
Since `selectLoop` errors on the first matching event and an empty
`chosen` list suppresses the target, this returns `.ok []` or an
error — it never produces a target carrying turning points. -/
def build_targets (profile : OpeningProfile) (blunders : List BlunderEvent)
    (cfg : PrepConfig) : Except PyError (List TargetPlan) :=
  match targetForSide profile blunders cfg Side.white with
  | .error e => .error e
  | .ok ow =>
    match targetForSide profile blunders cfg Side.black with
    | .error e => .error e
    | .ok ob => .ok (ow.toList ++ ob.toList)

/-! ## `openings.py` -/

/-- `openings._opponent_points`. -/
def opponentPoints (result : Str) (opponent_side : Side) : ℚ :=
  if result = strL "1-0" then (if opponent_side = Side.white then 1 else 0)
  else if result = strL "0-1" then (if opponent_side = Side.black then 1 else 0)
  else if result = strL "1/2-1/2" then 1/2
  else 0

/-- Append one value to the entry of an insertion-ordered dictionary,
creating the entry at the back if absent — the behaviour of a Python
`defaultdict(list)` under `d[k].append(v)`. -/
def assocAppendMoves : List (Str × List Str) → Str → Str → List (Str × List Str)
  | [], k, v => [(k, [v])]
  | (k', vs) :: rest, k, v =>
    if k' = k then (k', vs ++ [v]) :: rest
    else (k', vs) :: assocAppendMoves rest k v

/-- Same dictionary behaviour for the per-branch points lists. -/
def assocAppendPts : List (List Str × List ℚ) → List Str → ℚ → List (List Str × List ℚ)
  | [], k, v => [(k, [v])]
  | (k', vs) :: rest, k, v =>
    if k' = k then (k', vs ++ [v]) :: rest
    else (k', vs) :: assocAppendPts rest k v

/-- `branch_moves_by_game` in `openings.build_opening_profile`: for each
game, the SAN moves of its plies with `ply < cfg.opening_plies`
(strictly), in ply order; games keyed in first-appearance order. -/
def branchMovesByGame (plies : List PlyRecord) (opening_plies : ℕ) :
    List (Str × List Str) :=
  plies.foldl
    (fun acc pr =>
      if pr.ply < opening_plies then assocAppendMoves acc pr.game_id pr.move_san
      else acc)
    []

/-- `meta_by_id = {g.game_id: g for g in games}` — a dict comprehension
keeps the last binding of a duplicated key. -/
def metaById (games : List GameMeta) (gid : Str) : Option GameMeta :=
  games.reverse.find? (fun g => decide (g.game_id = gid))

/-- The three aggregation dictionaries of `build_opening_profile`. -/
structure StatsBuckets where
  white : List (List Str × List ℚ)
  vs_e4 : List (List Str × List ℚ)
  vs_d4 : List (List Str × List ℚ)
deriving DecidableEq

/-- One step of the aggregation loop over `branch_moves_by_game.items()`:
skip games with an unresolved opponent side, append the opponent's
points under the move-sequence key of the matching bucket.  A game id
absent from `meta_by_id` would raise a `KeyError` in the source
(unreachable from the pipeline) and is skipped here; the per-game move
lists are nonempty by construction, so the `[]` branch of the
opponent-as-Black dispatch (an `IndexError` in the source) is likewise
unreachable. -/
def bucketInsert (games : List GameMeta) (acc : StatsBuckets)
    (item : Str × List Str) : StatsBuckets :=
  match metaById games item.1 with
  | none => acc
  | some meta =>
    match meta.opponent_side with
    | none => acc
    | some side =>
      let points := opponentPoints (meta.result.getD []) side
      let key := item.2
      if side = Side.white then
        { acc with white := assocAppendPts acc.white key points }
      else
        match item.2 with
        | [] => acc
        | first :: _ =>
          if startsWithS first (strL "e4") then
            { acc with vs_e4 := assocAppendPts acc.vs_e4 key points }
          else if startsWithS first (strL "d4") then
            { acc with vs_d4 := assocAppendPts acc.vs_d4 key points }
          else acc

/-- The full aggregation pass of `build_opening_profile`. -/
def statsFold (games : List GameMeta) (items : List (Str × List Str)) :
    StatsBuckets :=
  items.foldl (bucketInsert games) ⟨[], [], []⟩

/-- `top_list` inside `build_opening_profile`: one stat per key, sorted
stably by `(games, score)` descending, truncated to `topn`. -/
def top_list (stats : List (List Str × List ℚ)) (side : Side) (topn : ℕ) :
    List OpeningBranchStat :=
  (sortStableDesc
    (fun a b =>
      decide (b.games < a.games ∨ (a.games = b.games ∧ b.score ≤ a.score)))
    (stats.map (fun kv =>
      { side := side
        moves_san := kv.1
        games := kv.2.length
        score := kv.2.sum / ((max 1 kv.2.length : ℕ) : ℚ) }))).take topn

/-- `openings.build_opening_profile` (`topn` left at its default 10). -/
def build_opening_profile (games : List GameMeta) (plies : List PlyRecord)
    (cfg : PrepConfig) : OpeningProfile :=
  let items := branchMovesByGame plies cfg.opening_plies
  let st := statsFold games items
  { opening_plies := cfg.opening_plies
    opponent_name := games.findSome? (fun g =>
      match g.opponent_name with
      | some s => if s = [] then none else some s
      | none => none)
    as_white_top := top_list st.white Side.white 10
    as_black_vs_e4_top := top_list st.vs_e4 Side.black 10
    as_black_vs_d4_top := top_list st.vs_d4 Side.black 10 }

/-! ### Order-invariant views of the aggregation (used to state C9) -/

/-- The `(key, points)` stream the opponent-as-White bucket receives. -/
def whiteItems (games : List GameMeta) (items : List (Str × List Str)) :
    List (List Str × ℚ) :=
  items.filterMap (fun item =>
    match metaById games item.1 with
    | none => none
    | some meta =>
      match meta.opponent_side with
      | none => none
      | some side =>
        if side = Side.white then
          some (item.2, opponentPoints (meta.result.getD []) side)
        else none)

/-- The `(key, points)` stream the opponent-as-Black-vs-e4 bucket receives. -/
def e4Items (games : List GameMeta) (items : List (Str × List Str)) :
    List (List Str × ℚ) :=
  items.filterMap (fun item =>
    match metaById games item.1 with
    | none => none
    | some meta =>
      match meta.opponent_side with
      | none => none
      | some side =>
        if side = Side.white then none
        else
          match item.2 with
          | [] => none
          | first :: _ =>
            if startsWithS first (strL "e4") then
              some (item.2, opponentPoints (meta.result.getD []) side)
            else none)

/-- The `(key, points)` stream the opponent-as-Black-vs-d4 bucket receives. -/
def d4Items (games : List GameMeta) (items : List (Str × List Str)) :
    List (List Str × ℚ) :=
  items.filterMap (fun item =>
    match metaById games item.1 with
    | none => none
    | some meta =>
      match meta.opponent_side with
      | none => none
      | some side =>
        if side = Side.white then none
        else
          match item.2 with
          | [] => none
          | first :: _ =>
            if startsWithS first (strL "e4") then none
            else if startsWithS first (strL "d4") then
              some (item.2, opponentPoints (meta.result.getD []) side)
            else none)

/-- Replaying one bucket's stream through its dictionary. -/
def statsOf (items : List (List Str × ℚ)) : List (List Str × List ℚ) :=
  items.foldl (fun acc kp => assocAppendPts acc kp.1 kp.2) []

/-- The points recorded for branch key `k` in one bucket stream. -/
def keyPoints (stream : List (List Str × ℚ)) (k : List Str) : List ℚ :=
  (stream.filter (fun kp => decide (kp.1 = k))).map (fun kp => kp.2)

/-- Lookup of one key's points list in a bucket dictionary. -/
def assocFindPts (s : List (List Str × List ℚ)) (k : List Str) :
    Option (List ℚ) :=
  (s.find? (fun kv => decide (kv.1 = k))).map (fun kv => kv.2)

/-! ## Auxiliary views and sample inputs -/

/-- The branch list a given opponent side is scored against in
`score_branches`: the White bucket, or the two Black buckets merged. -/
def groupBranches (report : PrepReport) : Side → List OpeningBranchStat
  | .white => report.opening_profile.as_white_top
  | .black =>
    report.opening_profile.as_black_vs_e4_top ++
    report.opening_profile.as_black_vs_d4_top

/-- The `PrepConfig` defaults of `types.py`. -/
def defaultConfig : PrepConfig :=
  { stockfish_path := strL "Stockfish"
    engine_movetime_ms := 150
    engine_threads := 2
    engine_hash_mb := 128
    max_games := none
    max_lies_per_game := none
    opening_plies := 8
    mistake_drop_cp := 80
    blunder_drop_cp := 200
    turning_point_per_side := 10
    dedupe_by_pos_key := true
    only_time_controls := none
    since_date := none }

/-- The `PrepPrefs` defaults of `prefs.py`. -/
def defaultPrefs : PrepPrefs :=
  { focus := strL "both"
    risk := RiskProfile.practical
    time_budget := TimeBudget.normal
    as_white_first_moves := [strL "e4", strL "d4"]
    as_black_vs_e4 := [strL "c5", strL "e5"]
    as_black_vs_d4 := [strL "Nf6", strL "d5"]
    banned_branch_keywords := []
    max_targets_per_side := 3
    max_turning_points_per_side := 10
    notes := [] }

/-- A concrete opponent-as-White blunder event used by witnesses. -/
def sampleEvW : BlunderEvent :=
  { game_id := strL "g1"
    ply := 10
    opponent_side := Side.white
    fen_before := strL "fenW"
    pos_key := strL "p1"
    opening_key := strL "e4 e5 Nf3"
    playing_move_uci := strL "e2e4"
    playing_move_san := strL "e4"
    drop_cp_equiv := 300
    severity := Severity.blunder
    refutation_pv_uci := []
    refutation_first_uci := none }

/-- A second opponent-as-White blunder with the same position key. -/
def sampleEvW2 : BlunderEvent :=
  { sampleEvW with ply := 20, drop_cp_equiv := 250, opening_key := strL "e4 e5 Bc4" }

/-- A third opponent-as-White blunder with a fresh position key. -/
def sampleEvW3 : BlunderEvent :=
  { sampleEvW with ply := 30, pos_key := strL "p2" }

/-- An empty report carcass to build concrete reports from. -/
def emptyReport : PrepReport :=
  { created_at := []
    games_ingested := 0
    opening_profile :=
      { opening_plies := 8
        opponent_name := none
        as_white_top := []
        as_black_vs_e4_top := []
        as_black_vs_d4_top := [] }
    blunders := []
    targets := []
    opponent_name := none }

/-- Branch in the opponent-as-Black-vs-e4 bucket, 2 games. -/
def brC1e : OpeningBranchStat :=
  { side := Side.black, moves_san := [strL "e4", strL "c5"], games := 2, score := 0 }

/-- Branch in the opponent-as-Black-vs-d4 bucket, 4 games. -/
def brC1d : OpeningBranchStat :=
  { side := Side.black, moves_san := [strL "d4", strL "d5"], games := 4, score := 0 }

/-- Report for the C1 counterexample: one branch in each of the two
opponent-as-Black buckets, with different game counts. -/
def rptC1 : PrepReport :=
  { emptyReport with
    opening_profile :=
      { emptyReport.opening_profile with
        as_black_vs_e4_top := [brC1e]
        as_black_vs_d4_top := [brC1d] } }

/-- Prefs focusing on the opponent's Black games. -/
def prefsBlack : PrepPrefs := { defaultPrefs with focus := strL "opp_as_black" }

/-- Prefs focusing on the opponent's White games. -/
def prefsWhite : PrepPrefs := { defaultPrefs with focus := strL "opp_as_white" }

/-- The branch score produced for `brC1e` on `rptC1`: its frequency is
`2/4 = 1/2` because the merged Black group's maximum is 4. -/
def bsC1e : BranchScore :=
  { branch_moves_san := [strL "e4", strL "c5"]
    opponent_side := Side.black
    games := 2
    frequency_score := 1/2
    weakness_score := 0
    fit_score := 1
    total_score := 9/20
    avg_drop_cp := 0
    blunder_rate := 0 }

/-- The branch score produced for `brC1d` on `rptC1`. -/
def bsC1d : BranchScore :=
  { branch_moves_san := [strL "d4", strL "d5"]
    opponent_side := Side.black
    games := 4
    frequency_score := 1
    weakness_score := 0
    fit_score := 1
    total_score := 13/20
    avg_drop_cp := 0
    blunder_rate := 0 }

/-- Opponent-as-White branch, 20 games (the group maximum). -/
def brC1a : OpeningBranchStat :=
  { side := Side.white, moves_san := [strL "e4", strL "e5"], games := 20, score := 0 }

/-- Opponent-as-White branch, 10 games (half the maximum). -/
def brC1b : OpeningBranchStat :=
  { side := Side.white, moves_san := [strL "d4", strL "d5"], games := 10, score := 0 }

/-- Report for the C1 witness: two opponent-as-White branches. -/
def rptC1w : PrepReport :=
  { emptyReport with
    opening_profile :=
      { emptyReport.opening_profile with as_white_top := [brC1a, brC1b] } }

/-- Opponent-as-White branch with zero games. -/
def brC1z : OpeningBranchStat :=
  { side := Side.white, moves_san := [strL "c4"], games := 0, score := 0 }

/-- Report whose only branch has zero games (group maximum 0). -/
def rptC1z : PrepReport :=
  { emptyReport with
    opening_profile :=
      { emptyReport.opening_profile with as_white_top := [brC1z] } }

/-- Branch score for `brC1a` on `rptC1w` with `prefsWhite`. -/
def bsC1a : BranchScore :=
  { branch_moves_san := [strL "e4", strL "e5"]
    opponent_side := Side.white
    games := 20
    frequency_score := 1
    weakness_score := 0
    fit_score := 1
    total_score := 13/20
    avg_drop_cp := 0
    blunder_rate := 0 }

/-- Branch score for `brC1b` on `rptC1w` with `prefsWhite`. -/
def bsC1b : BranchScore :=
  { branch_moves_san := [strL "d4", strL "d5"]
    opponent_side := Side.white
    games := 10
    frequency_score := 1/2
    weakness_score := 0
    fit_score := 1
    total_score := 9/20
    avg_drop_cp := 0
    blunder_rate := 0 }

/-- Branch score for the zero-games branch of `rptC1z`. -/
def bsC1z : BranchScore :=
  { branch_moves_san := [strL "c4"]
    opponent_side := Side.white
    games := 0
    frequency_score := 0
    weakness_score := 0
    fit_score := 1
    total_score := 1/4
    avg_drop_cp := 0
    blunder_rate := 0 }

/-- Opponent-as-Black branch with an empty move list. -/
def brC3X : OpeningBranchStat :=
  { side := Side.black, moves_san := [], games := 5, score := 0 }

/-- Report for the C3 counterexample: an opponent-as-Black branch with
an empty move list. -/
def rptC3X : PrepReport :=
  { emptyReport with
    opening_profile :=
      { emptyReport.opening_profile with as_black_vs_e4_top := [brC3X] } }

/-- Branch score `score_branches` produces for the empty-move branch:
its fit score is 1 although it has no first move. -/
def bsC3X : BranchScore :=
  { branch_moves_san := []
    opponent_side := Side.black
    games := 5
    frequency_score := 1
    weakness_score := 0
    fit_score := 1
    total_score := 13/20
    avg_drop_cp := 0
    blunder_rate := 0 }

/-- White branch whose text contains the banned keyword `"c5"`. -/
def brC3A : OpeningBranchStat :=
  { side := Side.white, moves_san := [strL "e4", strL "c5"], games := 15, score := 0 }

/-- Report for the C3 witness, banned-keyword case. -/
def rptC3A : PrepReport :=
  { emptyReport with
    opening_profile :=
      { emptyReport.opening_profile with as_white_top := [brC3A] } }

/-- Prefs banning the keyword `"c5"`. -/
def prefsBanC5 : PrepPrefs :=
  { defaultPrefs with
    focus := strL "opp_as_white"
    banned_branch_keywords := [strL "c5"] }

/-- Branch score for `brC3A` under `prefsBanC5`: fit 0. -/
def bsC3A : BranchScore :=
  { branch_moves_san := [strL "e4", strL "c5"]
    opponent_side := Side.white
    games := 15
    frequency_score := 1
    weakness_score := 0
    fit_score := 0
    total_score := 2/5
    avg_drop_cp := 0
    blunder_rate := 0 }

/-- Opponent-as-White branch for the C3 witness. -/
def brC3B : OpeningBranchStat :=
  { side := Side.white, moves_san := [strL "d4"], games := 7, score := 0 }

/-- Report for the C3 witness, opponent-as-White case. -/
def rptC3B : PrepReport :=
  { emptyReport with
    opening_profile :=
      { emptyReport.opening_profile with as_white_top := [brC3B] } }

/-- Branch score for `brC3B` with `prefsWhite`: fit 1. -/
def bsC3B : BranchScore :=
  { branch_moves_san := [strL "d4"]
    opponent_side := Side.white
    games := 7
    frequency_score := 1
    weakness_score := 0
    fit_score := 1
    total_score := 13/20
    avg_drop_cp := 0
    blunder_rate := 0 }

/-- Opponent-as-Black branch starting with `e4` for the C3 witness. -/
def brC3C : OpeningBranchStat :=
  { side := Side.black, moves_san := [strL "e4", strL "c5"], games := 10, score := 0 }

/-- Report for the C3 witness, opponent-as-Black case. -/
def rptC3C : PrepReport :=
  { emptyReport with
    opening_profile :=
      { emptyReport.opening_profile with as_black_vs_e4_top := [brC3C] } }

/-- Branch score for `brC3C` with `prefsBlack`: fit 1 (its first move
`e4` prefix-matches the user's declared first move `e4`). -/
def bsC3C : BranchScore :=
  { branch_moves_san := [strL "e4", strL "c5"]
    opponent_side := Side.black
    games := 10
    frequency_score := 1
    weakness_score := 0
    fit_score := 1
    total_score := 13/20
    avg_drop_cp := 0
    blunder_rate := 0 }

/-- A concrete opponent ply for the C5 witness. -/
def samplePly : PlyRecord :=
  { game_id := strL "g1"
    ply := 9
    side_who_moved := Side.white
    fen_before := strL "fen1"
    fen_after := strL "fen2"
    move_uci := strL "g1f3"
    move_san := strL "Nf3"
    pos_key := strL "pk1"
    opening_key := strL "e4 e5"
    }

/-- A concrete mainline move for the C6 theorems. -/
def sampleMv : MoveInfo :=
  { san := strL "e4"
    uci := strL "e2e4"
    fen_before := strL "startfen"
    fen_after := strL "afterfen"
    pos_key := strL "pk0"
    side_who_moved := Side.white }

/-- A second mainline move for the C6 witness. -/
def sampleMv2 : MoveInfo :=
  { san := strL "e5"
    uci := strL "e7e5"
    fen_before := strL "afterfen"
    fen_after := strL "fen3"
    pos_key := strL "pk1"
    side_who_moved := Side.black }

/-- Game A: the opponent played White and won with `1.e4`. -/
def gmA : GameMeta :=
  { game_id := strL "ga"
    event := none
    site := none
    date := none
    white := some (strL "Opp")
    black := some (strL "Other")
    result := some (strL "1-0")
    time_control := none
    white_elo := none
    black_elo := none
    opponent_name := some (strL "Opp")
    opponent_side := some Side.white }

/-- Game B: the opponent played White and won with `1.d4`. -/
def gmB : GameMeta := { gmA with game_id := strL "gb" }

/-- The single opening ply of game A. -/
def plA : PlyRecord :=
  { game_id := strL "ga"
    ply := 1
    side_who_moved := Side.white
    fen_before := strL "f0"
    fen_after := strL "f1"
    move_uci := strL "e2e4"
    move_san := strL "e4"
    pos_key := strL "k0"
    opening_key := strL "e4" }

/-- The single opening ply of game B. -/
def plB : PlyRecord :=
  { plA with
    game_id := strL "gb"
    move_uci := strL "d2d4"
    move_san := strL "d4"
    fen_after := strL "f2"
    opening_key := strL "d4" }

/-- The branch statistic aggregated for game A's `e4` branch. -/
def stC9a : OpeningBranchStat :=
  { side := Side.white, moves_san := [strL "e4"], games := 1, score := 1 }

/-- The branch statistic aggregated for game B's `d4` branch. -/
def stC9b : OpeningBranchStat :=
  { side := Side.white, moves_san := [strL "d4"], games := 1, score := 1 }

/-- Game C: the opponent played Black against `1.e4` and won. -/
def gmC : GameMeta :=
  { gmA with
    game_id := strL "gc"
    white := some (strL "Other")
    black := some (strL "Opp")
    result := some (strL "0-1")
    opponent_side := some Side.black }

/-- Game D: the opponent played Black against `1.d4` and won. -/
def gmD : GameMeta := { gmC with game_id := strL "gd" }

/-- The single opening ply of game C (White played `e4`). -/
def plC : PlyRecord := { plA with game_id := strL "gc" }

/-- The single opening ply of game D (White played `d4`). -/
def plD : PlyRecord := { plB with game_id := strL "gd" }

/-- The vs-e4 branch statistic aggregated for game C. -/
def stC9c : OpeningBranchStat :=
  { side := Side.black, moves_san := [strL "e4"], games := 1, score := 1 }

/-- The vs-d4 branch statistic aggregated for game D. -/
def stC9d : OpeningBranchStat :=
  { side := Side.black, moves_san := [strL "d4"], games := 1, score := 1 }

/-- A game whose id matches `samplePly`, opponent as White (for the C5
failing-input evaluation). -/
def gmC5 : GameMeta := { gmA with game_id := strL "g1" }

/-- The second ply record `walkGame` emits for
`[sampleMv, sampleMv2]` under the default config. -/
def samplePr2 : PlyRecord :=
  { game_id := strL "g1"
    ply := 2
    side_who_moved := Side.black
    fen_before := strL "afterfen"
    fen_after := strL "fen3"
    move_uci := strL "e7e5"
    move_san := strL "e5"
    pos_key := strL "pk1"
    opening_key := strL "e4 e5" }

/-! # Supporting lemmas -/

theorem insertByGe_perm (ge : α → α → Bool) (x : α) (l : List α) :
    List.Perm (insertByGe ge x l) (x :: l) := by
  induction l with
  | nil => simp [insertByGe]
  | cons y ys ih =>
    by_cases h : ge x y = true
    · simp [insertByGe, h]
    · simp only [insertByGe, h, if_false]
      exact (ih.cons y).trans (List.Perm.swap x y ys)

theorem sortStableDesc_perm (ge : α → α → Bool) (l : List α) :
    List.Perm (sortStableDesc ge l) l := by
  induction l with
  | nil => simp [sortStableDesc]
  | cons x xs ih =>
    exact (insertByGe_perm ge x (sortStableDesc ge xs)).trans (ih.cons x)

theorem mem_sortStableDesc {ge : α → α → Bool} {l : List α} {a : α} :
    a ∈ sortStableDesc ge l ↔ a ∈ l :=
  (sortStableDesc_perm ge l).mem_iff

/-! # Claim C4 — mate-score normalization -/

/-- **C4**, counterexample to the claim as stated: the favorable
"mate in 1" maps to `99000`, which is *not* greater than the plain
centipawn score `99500` passed through unchanged. -/
theorem c4_counterexample :
    mate_or_cp_to_numeric none (some 1) < mate_or_cp_to_numeric (some 99500) none := by
  norm_num [mate_or_cp_to_numeric]

/-- **C4** (amended): for mate distances up to 99 plies the mapping
`m ↦ sign(m)·(100000 − 1000·|m|)` is sign-correct and strictly
order-preserving (closer favorable mates rank strictly higher, closer
unfavorable mates strictly lower), and a favorable mate in `m₁`
strictly outranks every pass-through centipawn score below its mate
value `100000 − 1000·m₁` — the bounds the counterexample forces. -/
theorem c4_mate_ordering (m₁ m₂ cp : ℤ) (h1 : 1 ≤ m₁) (h12 : m₁ < m₂)
    (h2 : m₂ ≤ 99) (hcp : cp < 100000 - 1000 * m₁) :
    0 < mate_or_cp_to_numeric none (some m₁)
    ∧ mate_or_cp_to_numeric none (some m₂) < mate_or_cp_to_numeric none (some m₁)
    ∧ 0 < mate_or_cp_to_numeric none (some m₂)
    ∧ mate_or_cp_to_numeric none (some (-m₁)) < mate_or_cp_to_numeric none (some (-m₂))
    ∧ mate_or_cp_to_numeric none (some (-m₂)) < 0
    ∧ mate_or_cp_to_numeric (some cp) none < mate_or_cp_to_numeric none (some m₁)
    ∧ mate_or_cp_to_numeric (some cp) none = cp := by
  have hp1 : (0:ℤ) < m₁ := by omega
  have hp2 : (0:ℤ) < m₂ := by omega
  have e1 : mate_or_cp_to_numeric none (some m₁) = 100000 - 1000 * m₁ := by
    simp [mate_or_cp_to_numeric, hp1, abs_of_pos hp1]
  have e2 : mate_or_cp_to_numeric none (some m₂) = 100000 - 1000 * m₂ := by
    simp [mate_or_cp_to_numeric, hp2, abs_of_pos hp2]
  have e3 : mate_or_cp_to_numeric none (some (-m₁)) = -(100000 - 1000 * m₁) := by
    simp [mate_or_cp_to_numeric, not_lt.mpr (by omega : -m₁ ≤ 0), abs_of_pos hp1]
  have e4 : mate_or_cp_to_numeric none (some (-m₂)) = -(100000 - 1000 * m₂) := by
    simp [mate_or_cp_to_numeric, not_lt.mpr (by omega : -m₂ ≤ 0), abs_of_pos hp2]
  have e5 : mate_or_cp_to_numeric (some cp) none = cp := by
    simp [mate_or_cp_to_numeric]
  rw [e1, e2, e3, e4, e5] at *
  refine ⟨by omega, by omega, by omega, by omega, by omega, by omega, rfl⟩

/-- **C4** witness for the amended theorem at `m₁ = 1`, `m₂ = 10`,
`cp = 500`. -/
theorem c4_witness :
    0 < mate_or_cp_to_numeric none (some 1)
    ∧ mate_or_cp_to_numeric none (some 10) < mate_or_cp_to_numeric none (some 1)
    ∧ 0 < mate_or_cp_to_numeric none (some 10)
    ∧ mate_or_cp_to_numeric none (some (-1)) < mate_or_cp_to_numeric none (some (-10))
    ∧ mate_or_cp_to_numeric none (some (-10)) < 0
    ∧ mate_or_cp_to_numeric (some 500) none < mate_or_cp_to_numeric none (some 1)
    ∧ mate_or_cp_to_numeric (some 500) none = 500 :=
  c4_mate_ordering 1 10 500 (by norm_num) (by norm_num) (by norm_num) (by norm_num)

/-! # Claim C5 — mistake-event production and classification -/

/-- **C5** (code-bug evidence): at an evaluated opponent ply whose
normalized evaluation drop (100) reaches the default mistake threshold
(80), the source does not produce a classified mistake event — the
`BlunderEvent(...)` construction at blunders.py:76–89 passes the
keywords `played_move_uci`/`played_move_san`, which the dataclass does
not declare (it declares `playing_move_*`, the names the test suite
uses), so a `TypeError` is raised and the whole detection run dies.  A
below-threshold ply (drop 50) is discarded without error, confirming
the crash sits exactly on the claim's "event is produced" branch. -/
theorem c5_code_bug_eval :
    plyEvent (some Side.white) samplePly ⟨some 100, none⟩ ⟨some 0, none⟩ []
        defaultConfig = Except.error PyError.typeError
    ∧ plyEvent (some Side.white) samplePly ⟨some 50, none⟩ ⟨some 0, none⟩ []
        defaultConfig = Except.ok none
    ∧ extract_opponent_blunders [gmC5] [samplePly]
        (fun _ => (⟨some 100, none⟩, ⟨some 0, none⟩, [])) defaultConfig
      = Except.error PyError.typeError := by
  refine ⟨rfl, rfl, rfl⟩

/-! # Claim C10 — White header precedence in opponent resolution -/

/-- **C10**: when both participant-name headers contain the opponent
hint as a case-insensitive substring, the resolution block assigns
`opponent_side = WHITE` and `opponent_name` = the White header: the
White test runs first and short-circuits the `elif`. -/
theorem c10_white_precedence (h w b : Str) (hh : h ≠ []) (hw : w ≠ [])
    (hmw : containsS (toLowerS w) (toLowerS h) = true)
    (hmb : containsS (toLowerS b) (toLowerS h) = true) :
    resolveOpponent (some h) (some w) (some b) = some (Side.white, w) := by
  simp [resolveOpponent, truthyS, hh, hw, hmw]

/-- **C10** witness: the hint `"car"` matches both `"Carlsen"` (White)
and `"Caruana"` (Black); White wins. -/
theorem c10_witness :
    resolveOpponent (some (strL "car")) (some (strL "Carlsen"))
      (some (strL "Caruana")) = some (Side.white, strL "Carlsen") :=
  c10_white_precedence (strL "car") (strL "Carlsen") (strL "Caruana")
    (by decide) (by decide) (by decide) (by decide)

/-! # Claim C2 — weakness score -/

/-- **C2**: for a branch with a nonempty set of matching retained
mistakes (same side, opening key extending the branch key) and a
nonzero game count, the weakness score is exactly
`0.5·min(1, blunder_rate/0.5) + 0.5·min(1, avg_loss/300)` with
`blunder_rate` = matching count / games and `avg_loss` the mean drop;
it equals `1` iff `blunder_rate ≥ 1/2` and `avg_loss ≥ 300`; and any
branch with zero games or zero matching mistakes scores `0`. -/
theorem c2_weakness_score (key : Str) (side : Side) (games : ℕ)
    (blunders : List BlunderEvent) (m : List BlunderEvent) (rate avg : ℚ)
    (hmdef : m = weaknessMatching key side blunders)
    (hm : m ≠ []) (hg : games ≠ 0)
    (hrate : rate = (m.length : ℚ) / (games : ℚ))
    (havg : avg = (m.map (fun b => (b.drop_cp_equiv : ℚ))).sum / (m.length : ℚ))
    (key₂ : Str) (side₂ : Side) (games₂ : ℕ) (blunders₂ : List BlunderEvent)
    (hz : games₂ = 0 ∨ weaknessMatching key₂ side₂ blunders₂ = []) :
    weaknessForBranch key side games blunders
      = (0.5 * min 1 (rate / 0.5) + 0.5 * min 1 (avg / 300), rate, avg)
    ∧ ((weaknessForBranch key side games blunders).1 = 1 ↔
        (1/2 ≤ rate ∧ 300 ≤ avg))
    ∧ (weaknessForBranch key₂ side₂ games₂ blunders₂).1 = 0 := by
  subst hmdef hrate havg
  have hcond : ¬(weaknessMatching key side blunders = [] ∨ games = 0) := by
    push_neg
    exact ⟨hm, hg⟩
  have heq : weaknessForBranch key side games blunders
      = (0.5 * min 1 (((weaknessMatching key side blunders).length : ℚ) / (games : ℚ) / 0.5)
          + 0.5 * min 1 ((((weaknessMatching key side blunders).map
              (fun b => (b.drop_cp_equiv : ℚ))).sum /
                ((weaknessMatching key side blunders).length : ℚ)) / 300),
         ((weaknessMatching key side blunders).length : ℚ) / (games : ℚ),
         ((weaknessMatching key side blunders).map
            (fun b => (b.drop_cp_equiv : ℚ))).sum /
              ((weaknessMatching key side blunders).length : ℚ)) := by
    unfold weaknessForBranch
    rw [if_neg hcond]
  refine ⟨heq, ?_, ?_⟩
  · rw [heq]
    set r : ℚ := ((weaknessMatching key side blunders).length : ℚ) / (games : ℚ)
    set a : ℚ := ((weaknessMatching key side blunders).map
        (fun b => (b.drop_cp_equiv : ℚ))).sum /
          ((weaknessMatching key side blunders).length : ℚ)
    have h₁ : min 1 (r / 0.5) ≤ 1 := min_le_left _ _
    have h₂ : min 1 (a / 300) ≤ 1 := min_le_left _ _
    constructor
    · intro hsum
      have e₁ : min 1 (r / 0.5) = 1 := by nlinarith
      have e₂ : min 1 (a / 300) = 1 := by nlinarith
      have hr : (1 : ℚ) ≤ r / 0.5 := by
        by_contra hlt
        push_neg at hlt
        rw [min_eq_right hlt.le] at e₁
        exact absurd e₁ (by linarith)
      have ha : (1 : ℚ) ≤ a / 300 := by
        by_contra hlt
        push_neg at hlt
        rw [min_eq_right hlt.le] at e₂
        exact absurd e₂ (by linarith)
      constructor
      · rw [le_div_iff (by norm_num : (0:ℚ) < 0.5)] at hr
        linarith
      · rw [le_div_iff (by norm_num : (0:ℚ) < 300)] at ha
        linarith
    · rintro ⟨hr, ha⟩
      have e₁ : min 1 (r / 0.5) = 1 :=
        min_eq_left (by rw [le_div_iff (by norm_num : (0:ℚ) < 0.5)]; linarith)
      have e₂ : min 1 (a / 300) = 1 :=
        min_eq_left (by rw [le_div_iff (by norm_num : (0:ℚ) < 300)]; linarith)
      rw [e₁, e₂]
      norm_num
  · rcases hz with hz | hz
    · unfold weaknessForBranch
      rw [if_pos (Or.inr hz)]
    · unfold weaknessForBranch
      rw [if_pos (Or.inl hz)]

/-- **C2** witness: one matching 300-centipawn blunder over 10 games
gives rate `1/10`, average `300`, weakness
`0.5·(1/5) + 0.5·1 = 3/5 ≠ 1`; and a zero-game branch scores `0`. -/
theorem c2_witness :
    weaknessForBranch [] Side.white 10 [sampleEvW]
      = (0.5 * min 1 ((1/10 : ℚ) / 0.5) + 0.5 * min 1 ((300 : ℚ) / 300), 1/10, 300)
    ∧ ((weaknessForBranch [] Side.white 10 [sampleEvW]).1 = 1 ↔
        (1/2 ≤ (1/10 : ℚ) ∧ (300 : ℚ) ≤ 300))
    ∧ (weaknessForBranch [] Side.white 0 [sampleEvW]).1 = 0 :=
  c2_weakness_score [] Side.white 10 [sampleEvW] [sampleEvW] (1/10) 300
    (by decide) (by decide) (by decide)
    (by norm_num) (by simp [sampleEvW])
    [] Side.white 0 [sampleEvW] (Or.inl rfl)

/-! # Claim C6 — opening keys of emitted ply records -/

/-- Appending one element and truncating equals the conditional append
the ingest loop performs on its SAN accumulator. -/
theorem take_append_singleton (A : List α) (x : α) (d : ℕ) :
    (A ++ [x]).take d =
      (if A.length + 1 ≤ d then A.take d ++ [x] else A.take d) := by
  by_cases hle : A.length + 1 ≤ d
  · rw [if_pos hle, List.take_of_length_le (by simp; omega),
      List.take_of_length_le (by omega)]
  · rw [if_neg hle, List.take_append_of_le_length (by omega)]

/-- Truncating at `min (|A| + 1) d` cuts the tail after `x` entirely. -/
theorem take_min_cons (A : List α) (x : α) (B : List α) (d : ℕ) :
    (A ++ x :: B).take (min (A.length + 1) d) = (A ++ [x]).take d := by
  have e1 : A ++ x :: B = (A ++ [x]) ++ B := by simp
  by_cases hle : A.length + 1 ≤ d
  · rw [min_eq_left hle, e1,
      List.take_append_of_le_length (by simp),
      List.take_of_length_le (by simp),
      List.take_of_length_le (by simp; omega)]
  · rw [min_eq_right (by omega), e1,
      List.take_append_of_le_length (by simp; omega)]

theorem walkGameAux_opening_key (gid : Str) (d : ℕ) (maxl : Option ℕ) :
    ∀ (rest pre : List MoveInfo) (pr : PlyRecord),
      pr ∈ walkGameAux gid d maxl rest
        ((pre.map (fun m => m.san)).take d) pre.length →
      pr.opening_key =
        joinSpace (((pre ++ rest).map (fun m => m.san)).take (min pr.ply d)) := by
  intro rest
  induction rest with
  | nil =>
    intro pre pr h
    simp [walkGameAux] at h
  | cons mv rest ih =>
    intro pre pr h
    have hacc : (((pre ++ [mv]).map (fun m => m.san)).take d) =
        (if pre.length + 1 ≤ d then
          ((pre.map (fun m => m.san)).take d) ++ [mv.san]
         else ((pre.map (fun m => m.san)).take d)) := by
      rw [List.map_append, List.map_singleton,
        take_append_singleton (pre.map (fun m => m.san)) mv.san d,
        List.length_map]
    simp only [walkGameAux, List.mem_cons] at h
    rcases h with h | h
    · subst h
      show joinSpace _ =
        joinSpace (((pre ++ mv :: rest).map (fun m => m.san)).take
          (min (pre.length + 1) d))
      rw [List.map_append, List.map_cons]
      rw [show pre.length + 1 = (pre.map (fun m => m.san)).length + 1 by simp]
      rw [take_min_cons (pre.map (fun m => m.san)) mv.san
        (rest.map (fun m => m.san)) d]
      rw [take_append_singleton (pre.map (fun m => m.san)) mv.san d]
    · rcases hh : maxLiesHit maxl (pre.length + 1) with _ | _
      · rw [hh] at h
        simp only [if_false, Bool.false_eq_true] at h
        have hrec := ih (pre ++ [mv]) pr
        rw [hacc] at hrec
        have hlen : (pre ++ [mv]).length = pre.length + 1 := by simp
        rw [hlen] at hrec
        have := hrec h
        rw [this]
        simp [List.append_assoc]
      · rw [hh] at h
        simp at h

/-- **C6** (amended): every ply record `ingest_pgns` emits carries as
opening key the space-joined SAN moves from ply 1 up to **and
including** the record's own ply, truncated to the configured opening
depth — not up to the predecessor only, as the claim states. -/
theorem c6_opening_key (gid : Str) (moves : List MoveInfo) (cfg : PrepConfig)
    (pr : PlyRecord) (h : pr ∈ walkGame gid moves cfg) :
    pr.opening_key =
      joinSpace ((moves.map (fun m => m.san)).take (min pr.ply cfg.opening_plies)) := by
  have h' : pr ∈ walkGameAux gid cfg.opening_plies cfg.max_lies_per_game moves
      ((([] : List MoveInfo).map (fun m => m.san)).take cfg.opening_plies)
      ([] : List MoveInfo).length := by
    simpa [walkGame] using h
  simpa using walkGameAux_opening_key gid cfg.opening_plies
    cfg.max_lies_per_game moves [] pr h'

/-- **C6**, counterexample to the claim as stated: the very first
emitted record (ply 1, move `e4`) already has opening key `"e4"`,
whereas the moves strictly before ply 1 join to the empty string. -/
theorem c6_counterexample :
    (walkGame (strL "g1") [sampleMv] defaultConfig).map
        (fun pr => (pr.ply, pr.opening_key)) = [(1, strL "e4")]
    ∧ strL "e4" ≠
        joinSpace (([sampleMv].map (fun m => m.san)).take
          (min (1 - 1) defaultConfig.opening_plies)) := by
  constructor <;> decide

/-- **C6** witness: the second record of a two-move game has opening
key `"e4 e5"`, the join of the first two SAN moves. -/
theorem c6_witness :
    samplePr2.opening_key =
      joinSpace (([sampleMv, sampleMv2].map (fun m => m.san)).take
        (min samplePr2.ply defaultConfig.opening_plies)) :=
  c6_opening_key (strL "g1") [sampleMv, sampleMv2] defaultConfig samplePr2
    (by decide)

/-! # Claim C7 — turning-point dedup and cap -/

/-- Length bound for the collection loop: starting from `n` appended
events with `n < cap`, at most `cap - n` more are appended (the loop
breaks right after the count reaches `cap`). -/
theorem tpLoop_length (matchp : BlunderEvent → Bool) (dedupe : Bool) (cap : ℤ) :
    ∀ (rest : List BlunderEvent) (seen : List Str) (n : ℕ), (n : ℤ) < cap →
      (n : ℤ) + (tpLoop matchp dedupe cap rest seen n).length ≤ cap := by
  intro rest
  induction rest with
  | nil => intro seen n h; simp [tpLoop]; omega
  | cons b rest ih =>
    intro seen n h
    rw [tpLoop]
    by_cases hm : matchp b = false
    · rw [if_pos hm]
      exact ih seen n h
    · rw [if_neg hm]
      by_cases hdup : (dedupe && decide (b.pos_key ∈ seen)) = true
      · rw [if_pos hdup]
        exact ih seen n h
      · rw [if_neg hdup]
        by_cases hcap : (n + 1 : ℤ) ≥ cap
        · rw [if_pos hcap]
          simp
          omega
        · rw [if_neg hcap]
          have := ih (b.pos_key :: seen) (n + 1) (by omega)
          simp only [List.length_cons]
          push_cast at this ⊢
          omega

/-- With deduplication on, the loop never emits a position key twice,
and never emits a key already recorded in `seen`. -/
theorem tpLoop_dedup (matchp : BlunderEvent → Bool) (cap : ℤ) :
    ∀ (rest : List BlunderEvent) (seen : List Str) (n : ℕ),
      List.Pairwise (fun a b => a.pos_key ≠ b.pos_key)
        (tpLoop matchp true cap rest seen n)
      ∧ ∀ tp ∈ tpLoop matchp true cap rest seen n, tp.pos_key ∉ seen := by
  intro rest
  induction rest with
  | nil => intro seen n; simp [tpLoop]
  | cons b rest ih =>
    intro seen n
    rw [tpLoop]
    by_cases hm : matchp b = false
    · rw [if_pos hm]
      exact ih seen n
    · rw [if_neg hm]
      by_cases hdup : (true && decide (b.pos_key ∈ seen)) = true
      · rw [if_pos hdup]
        exact ih seen n
      · rw [if_neg hdup]
        have hnotin : b.pos_key ∉ seen := by
          simpa using hdup
        by_cases hcap : (n + 1 : ℤ) ≥ cap
        · rw [if_pos hcap]
          refine ⟨by simp, ?_⟩
          intro tp htp
          simp only [List.mem_singleton] at htp
          subst htp
          simpa [blunderToTurningPoint] using hnotin
        · rw [if_neg hcap]
          obtain ⟨hpw, hseen⟩ := ih (b.pos_key :: seen) (n + 1)
          refine ⟨?_, ?_⟩
          · refine List.Pairwise.cons ?_ hpw
            intro tp htp
            have := hseen tp htp
            simp only [List.mem_cons, not_or] at this
            simp [blunderToTurningPoint]
            intro hcontra
            exact this.1 hcontra.symm
          · intro tp htp
            simp only [List.mem_cons] at htp
            rcases htp with htp | htp
            · subst htp
              simpa [blunderToTurningPoint] using hnotin
            · have := hseen tp htp
              simp only [List.mem_cons, not_or] at this
              exact this.2

/-- Supporting fact (general): the planner's turning-point list never
repeats a position key, and with a cap of at least 1 (guaranteed by
`PrepPrefs.normalize` on the planner path) its length never exceeds the
cap. -/
theorem plannerTPs_dedup_cap (blunders : List BlunderEvent) (side : Side)
    (br_key : Str) (cap : ℤ) (hcap : 1 ≤ cap) :
    List.Pairwise (fun a b => a.pos_key ≠ b.pos_key)
      (plannerTPs blunders side br_key cap)
    ∧ ((plannerTPs blunders side br_key cap).length : ℤ) ≤ cap := by
  refine ⟨(tpLoop_dedup _ cap blunders [] 0).1, ?_⟩
  have := tpLoop_length
    (fun b => decide (b.opponent_side = side) &&
      (decide (br_key = []) || startsWithS b.opening_key br_key))
    true cap blunders [] 0 (by omega)
  simpa [plannerTPs] using this

/-- Supporting witness for `plannerTPs_dedup_cap`: two events sharing a
position key, cap 10 — a deduplicated list of length ≤ 10. -/
theorem plannerTPs_dedup_cap_witness :
    List.Pairwise (fun a b => a.pos_key ≠ b.pos_key)
      (plannerTPs [sampleEvW, sampleEvW2] Side.white (strL "e4 e5") 10)
    ∧ ((plannerTPs [sampleEvW, sampleEvW2] Side.white (strL "e4 e5") 10).length : ℤ) ≤ 10 :=
  plannerTPs_dedup_cap [sampleEvW, sampleEvW2] Side.white (strL "e4 e5") 10
    (by norm_num)

/-- **C7** (code bug): the claim says `select.build_targets` emits, per
side, a deduplicated turning-point list capped by the configured
per-side limit.  In the source, `build_targets` reads
`b.played_move_san` / `b.played_move_uci` on the first mistake event
that matches the side (the dataclass declares `playing_move_*`), passes
`opening_mistake_move_san=` to `TurningPoint` (which declares
`opoonent_mistake_move_san`), and reads `cfg.max_turning_points_per_side`
(`PrepConfig` declares `turning_point_per_side`) — so it raises
`AttributeError` before appending a single turning point; it only
returns when no event matches.  The planner variant, which uses the
declared names, does satisfy deduplication and the cap: concretely,
two qualifying events sharing a position key with cap 10 give a
pairwise-distinct list of length 1, and with two distinct keys but cap
1 only one turning point is kept. -/
theorem c7_code_bug_eval :
    build_targets rptC1w.opening_profile [sampleEvW] defaultConfig
        = Except.error PyError.attributeError
    ∧ build_targets rptC1w.opening_profile [] defaultConfig = Except.ok []
    ∧ List.Pairwise (fun a b => a.pos_key ≠ b.pos_key)
        (plannerTPs [sampleEvW, sampleEvW2] Side.white (strL "e4 e5") 10)
    ∧ (plannerTPs [sampleEvW, sampleEvW2] Side.white (strL "e4 e5") 10).length = 1
    ∧ (plannerTPs [sampleEvW, sampleEvW3] Side.white (strL "e4 e5") 1).length = 1 := by
  refine ⟨rfl, rfl, by decide, by decide, by decide⟩

/-! # Claim C8 — game-id uniqueness -/

theorem digitChar_injOn_fin : ∀ a b : Fin 10,
    Nat.digitChar a.val = Nat.digitChar b.val → a = b := by decide

theorem map_digitChar_inj : ∀ (l1 l2 : List ℕ),
    (∀ x ∈ l1, x < 10) → (∀ x ∈ l2, x < 10) →
    l1.map Nat.digitChar = l2.map Nat.digitChar → l1 = l2 := by
  intro l1
  induction l1 with
  | nil =>
    intro l2 _ _ h
    cases l2 with
    | nil => rfl
    | cons b t2 => simp at h
  | cons a t ih =>
    intro l2 h1 h2 h
    cases l2 with
    | nil => simp at h
    | cons b t2 =>
      simp only [List.map_cons, List.cons.injEq] at h
      have ha : a < 10 := h1 a (List.mem_cons_self a t)
      have hb : b < 10 := h2 b (List.mem_cons_self b t2)
      have hab : a = b := by
        have := digitChar_injOn_fin ⟨a, ha⟩ ⟨b, hb⟩ h.1
        exact congrArg Fin.val this
      rw [hab, ih t2 (fun x hx => h1 x (List.mem_cons_of_mem a hx))
        (fun x hx => h2 x (List.mem_cons_of_mem b hx)) h.2]

theorem natDecChars_inj (m n : ℕ) (h : natDecChars m = natDecChars n) :
    m = n := by
  unfold natDecChars at h
  have hlt : ∀ k : ℕ, ∀ x ∈ Nat.digits 10 k, x < 10 :=
    fun k x hx => Nat.digits_lt_base (by norm_num) hx
  have e0 : List.map Nat.digitChar [0] = ['0'] := by decide
  by_cases hm : m = 0 <;> by_cases hn : n = 0
  · omega
  · rw [if_pos hm, if_neg hn, List.map_reverse] at h
    have h' : ['0'] = List.map Nat.digitChar (Nat.digits 10 n) := by
      have h2 := congrArg List.reverse h
      simpa using h2
    have hd : ([0] : List ℕ) = Nat.digits 10 n :=
      map_digitChar_inj [0] (Nat.digits 10 n) (by simp)
        (fun x hx => hlt n x hx) (e0.trans h')
    have hn0 := Nat.ofDigits_digits 10 n
    rw [← hd] at hn0
    simp [Nat.ofDigits] at hn0
    omega
  · rw [if_neg hm, if_pos hn, List.map_reverse] at h
    have h' : ['0'] = List.map Nat.digitChar (Nat.digits 10 m) := by
      have h2 := congrArg List.reverse h.symm
      simpa using h2
    have hd : ([0] : List ℕ) = Nat.digits 10 m :=
      map_digitChar_inj [0] (Nat.digits 10 m) (by simp)
        (fun x hx => hlt m x hx) (e0.trans h')
    have hm0 := Nat.ofDigits_digits 10 m
    rw [← hd] at hm0
    simp [Nat.ofDigits] at hm0
    omega
  · rw [if_neg hm, if_neg hn, List.map_reverse, List.map_reverse] at h
    have h' : List.map Nat.digitChar (Nat.digits 10 m)
        = List.map Nat.digitChar (Nat.digits 10 n) := by
      have h2 := congrArg List.reverse h
      simpa using h2
    have hd : Nat.digits 10 m = Nat.digits 10 n :=
      map_digitChar_inj _ _ (fun x hx => hlt m x hx)
        (fun x hx => hlt n x hx) h'
    exact Nat.digits_inj_iff.mp hd

theorem fallbackGameId_inj (idx i j : ℕ) (hij : i ≠ j) :
    fallbackGameId idx i ≠ fallbackGameId idx j := by
  intro h
  unfold fallbackGameId at h
  rw [List.append_assoc, List.append_assoc, List.append_assoc,
    List.append_assoc] at h
  have h1 := List.append_cancel_left h
  have h2 := List.append_cancel_left h1
  have h3 := List.append_cancel_left h2
  exact hij (natDecChars_inj i j h3)

/-- **C8**, counterexample to the claim as stated: two distinct games
of one batch (positions 0 and 1) whose PGN headers carry the same site
string `"Chess.com"` — a routine situation in bulk exports — produce
identical digest inputs, and `game_id = md5(input)[:12]` is a pure
function of that input, so the two games receive the *same* id. -/
theorem c8_counterexample :
    gameIdSource (some (strL "Chess.com")) 0 0
      = gameIdSource (some (strL "Chess.com")) 0 1
    ∧ (0 : ℕ) ≠ 1 := by
  constructor <;> decide

/-- **C8** (amended): within one source text, the synthetic fallback
identifiers (used when the site header is absent or empty) are pairwise
distinct, so fallback-identified games never collide; but a present,
nonempty site header is passed through as the digest input unchanged,
so distinct games sharing a site header collide. -/
theorem c8_game_id_source (idx i j : ℕ) (hij : i ≠ j) (s : Str) (hs : s ≠ []) :
    gameIdSource none idx i ≠ gameIdSource none idx j
    ∧ gameIdSource (some []) idx i ≠ gameIdSource (some []) idx j
    ∧ gameIdSource (some s) idx i = gameIdSource (some s) idx j := by
  refine ⟨?_, ?_, ?_⟩
  · simpa [gameIdSource] using fallbackGameId_inj idx i j hij
  · simpa [gameIdSource] using fallbackGameId_inj idx i j hij
  · simp [gameIdSource, hs]

/-- **C8** witness at batch positions 0 and 1 with site `"Chess.com"`. -/
theorem c8_witness :
    gameIdSource none 0 0 ≠ gameIdSource none 0 1
    ∧ gameIdSource (some []) 0 0 ≠ gameIdSource (some []) 0 1
    ∧ gameIdSource (some (strL "Chess.com")) 0 0
        = gameIdSource (some (strL "Chess.com")) 0 1 :=
  c8_game_id_source 0 0 1 (by decide) (strL "Chess.com") (by decide)

/-! # Claims C1 and C3 — structure of `score_branches` output -/

theorem scoreBranch_opponent_side (s : Side) (mg : ℕ) (b : List Str)
    (p : PrepPrefs) (w : ℚ × ℚ × ℚ) (bl : List BlunderEvent)
    (br : OpeningBranchStat) :
    (scoreBranch s mg b p w bl br).opponent_side = s := rfl

theorem scoreBranch_games (s : Side) (mg : ℕ) (b : List Str)
    (p : PrepPrefs) (w : ℚ × ℚ × ℚ) (bl : List BlunderEvent)
    (br : OpeningBranchStat) :
    (scoreBranch s mg b p w bl br).games = br.games := rfl

theorem scoreBranch_moves (s : Side) (mg : ℕ) (b : List Str)
    (p : PrepPrefs) (w : ℚ × ℚ × ℚ) (bl : List BlunderEvent)
    (br : OpeningBranchStat) :
    (scoreBranch s mg b p w bl br).branch_moves_san = br.moves_san := rfl

theorem scoreBranch_frequency (s : Side) (mg : ℕ) (b : List Str)
    (p : PrepPrefs) (w : ℚ × ℚ × ℚ) (bl : List BlunderEvent)
    (br : OpeningBranchStat) :
    (scoreBranch s mg b p w bl br).frequency_score =
      roundTo 4 (if mg > 0 then (br.games : ℚ) / (mg : ℚ) else 0) := rfl

theorem scoreBranch_fit (s : Side) (mg : ℕ) (b : List Str)
    (p : PrepPrefs) (w : ℚ × ℚ × ℚ) (bl : List BlunderEvent)
    (br : OpeningBranchStat) :
    (scoreBranch s mg b p w bl br).fit_score =
      (if movesBanned br.moves_san b then (0:ℚ)
       else if movesFit br.moves_san s p then 1 else 0) := rfl

/-- Every branch score in `score_branches` output arises from one
branch of the scoring group of its side, scored against that whole
group's maximum game count. -/
theorem score_branches_mem (report : PrepReport) (prefs0 : PrepPrefs)
    (bs : BranchScore) (h : bs ∈ score_branches report prefs0) :
    ∃ s br, br ∈ groupBranches report s ∧
      bs = scoreBranch s (maxGames (groupBranches report s))
        (prefs0.normalize.banned_branch_keywords.map toLowerS)
        prefs0.normalize (weightsOf prefs0.normalize.risk)
        report.blunders br := by
  unfold score_branches at h
  rw [mem_sortStableDesc, List.mem_flatMap] at h
  obtain ⟨sb, hsb, hmem⟩ := h
  by_cases hne : sb.2 = []
  · rw [if_pos hne] at hmem
    simp at hmem
  · rw [if_neg hne, List.mem_map] at hmem
    obtain ⟨br, hbr, hbs⟩ := hmem
    have hgrp : sb = (Side.white, report.opening_profile.as_white_top) ∨
        sb = (Side.black,
          report.opening_profile.as_black_vs_e4_top ++
          report.opening_profile.as_black_vs_d4_top) := by
      unfold sideBranches at hsb
      rw [List.mem_append] at hsb
      rcases hsb with hsb | hsb
      · left
        split at hsb
        · simpa using hsb
        · simp at hsb
      · right
        split at hsb
        · simpa using hsb
        · simp at hsb
    rcases hgrp with hgrp | hgrp <;> subst hgrp
    · exact ⟨Side.white, br, hbr, hbs.symm⟩
    · exact ⟨Side.black, br, hbr, hbs.symm⟩

/-- The frequency score of every produced branch score is the rounded
ratio of its game count to its scoring group's maximum game count. -/
theorem score_branches_frequency (report : PrepReport) (prefs0 : PrepPrefs)
    (bs : BranchScore) (h : bs ∈ score_branches report prefs0) :
    bs.frequency_score = roundTo 4
      (if 0 < maxGames (groupBranches report bs.opponent_side) then
        (bs.games : ℚ) / (maxGames (groupBranches report bs.opponent_side) : ℚ)
       else 0) := by
  obtain ⟨s, br, hbr, rfl⟩ := score_branches_mem report prefs0 bs h
  rw [scoreBranch_opponent_side, scoreBranch_frequency, scoreBranch_games]

/-- The fit score of every produced branch score is the banned-keyword
gate followed by the repertoire test. -/
theorem score_branches_fit (report : PrepReport) (prefs0 : PrepPrefs)
    (bs : BranchScore) (h : bs ∈ score_branches report prefs0) :
    bs.fit_score =
      (if movesBanned bs.branch_moves_san
          (prefs0.normalize.banned_branch_keywords.map toLowerS) then (0:ℚ)
       else if movesFit bs.branch_moves_san bs.opponent_side prefs0.normalize
       then 1 else 0) := by
  obtain ⟨s, br, hbr, rfl⟩ := score_branches_mem report prefs0 bs h
  rw [scoreBranch_opponent_side, scoreBranch_fit, scoreBranch_moves]

theorem roundTo4_one : roundTo 4 1 = 1 := by norm_num [roundTo, rndHalfEven]

theorem roundTo4_half : roundTo 4 (1/2) = 1/2 := by
  norm_num [roundTo, rndHalfEven]

theorem roundTo4_zero : roundTo 4 0 = 0 := by norm_num [roundTo, rndHalfEven]

theorem movesFit_white (mv : List Str) (p : PrepPrefs) :
    movesFit mv Side.white p = true := by
  cases mv <;> simp [movesFit]

theorem movesFit_black_iff (mv : List Str) (p : PrepPrefs) :
    movesFit mv Side.black p = true ↔
      (mv = [] ∨ firstMoveMatches mv p.as_white_first_moves = true) := by
  cases mv with
  | nil => simp [movesFit]
  | cons first rest => simp [movesFit, firstMoveMatches]

/-- Evaluation helper: `score_branches` on a report whose focus filter
selects exactly one nonempty group. -/
theorem score_branches_single_group (report : PrepReport) (prefs : PrepPrefs)
    (side : Side) (brs : List OpeningBranchStat)
    (hnorm : prefs.normalize = prefs)
    (hsb : sideBranches report prefs = [(side, brs)]) (hbrs : brs ≠ []) :
    score_branches report prefs =
      sortStableDesc (fun a b => decide (b.total_score ≤ a.total_score))
        (brs.map (scoreBranch side (maxGames brs)
          (prefs.banned_branch_keywords.map toLowerS) prefs
          (weightsOf prefs.risk) report.blunders)) := by
  unfold score_branches
  simp only [hnorm, hsb, List.flatMap_cons, List.flatMap_nil, List.append_nil]
  rw [if_neg hbrs]

theorem score_branches_rptC1w :
    score_branches rptC1w prefsWhite = [bsC1a, bsC1b] := by
  rw [score_branches_single_group rptC1w prefsWhite Side.white [brC1a, brC1b]
    (by decide) (by decide) (by decide)]
  have heA : scoreBranch Side.white (maxGames [brC1a, brC1b])
      (prefsWhite.banned_branch_keywords.map toLowerS) prefsWhite
      (weightsOf prefsWhite.risk) rptC1w.blunders brC1a = bsC1a := by
    have hmax : maxGames [brC1a, brC1b] = 20 := by decide
    rw [hmax]
    simp [scoreBranch, weightsOf, brC1a, bsC1a, weaknessForBranch,
      weaknessMatching, isBanned, movesBanned, fitsRepertoire, movesFit,
      prefsWhite, defaultPrefs, rptC1w, emptyReport]
    norm_num [roundTo, rndHalfEven]
  have heB : scoreBranch Side.white (maxGames [brC1a, brC1b])
      (prefsWhite.banned_branch_keywords.map toLowerS) prefsWhite
      (weightsOf prefsWhite.risk) rptC1w.blunders brC1b = bsC1b := by
    have hmax : maxGames [brC1a, brC1b] = 20 := by decide
    rw [hmax]
    simp [scoreBranch, weightsOf, brC1b, bsC1b, weaknessForBranch,
      weaknessMatching, isBanned, movesBanned, fitsRepertoire, movesFit,
      prefsWhite, defaultPrefs, rptC1w, emptyReport]
    norm_num [roundTo, rndHalfEven]
  rw [List.map_cons, List.map_cons, List.map_nil, heA, heB]
  norm_num [sortStableDesc, insertByGe, bsC1a, bsC1b]

theorem score_branches_rptC1z :
    score_branches rptC1z prefsWhite = [bsC1z] := by
  rw [score_branches_single_group rptC1z prefsWhite Side.white [brC1z]
    (by decide) (by decide) (by decide)]
  have he : scoreBranch Side.white (maxGames [brC1z])
      (prefsWhite.banned_branch_keywords.map toLowerS) prefsWhite
      (weightsOf prefsWhite.risk) rptC1z.blunders brC1z = bsC1z := by
    have hmax : maxGames [brC1z] = 0 := by decide
    rw [hmax]
    simp [scoreBranch, weightsOf, brC1z, bsC1z, weaknessForBranch,
      weaknessMatching, isBanned, movesBanned, fitsRepertoire, movesFit,
      prefsWhite, defaultPrefs, rptC1z, emptyReport]
    norm_num [roundTo, rndHalfEven]
  rw [List.map_cons, List.map_nil, he]
  norm_num [sortStableDesc, insertByGe]

theorem score_branches_rptC1 :
    score_branches rptC1 prefsBlack = [bsC1d, bsC1e] := by
  rw [score_branches_single_group rptC1 prefsBlack Side.black [brC1e, brC1d]
    (by decide) (by decide) (by decide)]
  have hfitE : fitsRepertoire brC1e Side.black prefsBlack = true := by decide
  have hfitD : fitsRepertoire brC1d Side.black prefsBlack = true := by decide
  have hbanE : isBanned brC1e (prefsBlack.banned_branch_keywords.map toLowerS)
      = false := by decide
  have hbanD : isBanned brC1d (prefsBlack.banned_branch_keywords.map toLowerS)
      = false := by decide
  have hwkE : weaknessForBranch (stripS (joinSpace brC1e.moves_san))
      Side.black brC1e.games rptC1.blunders = (0, 0, 0) := by decide
  have hwkD : weaknessForBranch (stripS (joinSpace brC1d.moves_san))
      Side.black brC1d.games rptC1.blunders = (0, 0, 0) := by decide
  have heE : scoreBranch Side.black (maxGames [brC1e, brC1d])
      (prefsBlack.banned_branch_keywords.map toLowerS) prefsBlack
      (weightsOf prefsBlack.risk) rptC1.blunders brC1e = bsC1e := by
    have hmax : maxGames [brC1e, brC1d] = 4 := by decide
    rw [hmax]
    simp only [scoreBranch, hwkE, hbanE, hfitE, Bool.false_eq_true,
      if_false, if_true, ite_true, ite_false]
    simp [brC1e, bsC1e, weightsOf, prefsBlack, defaultPrefs]
    norm_num [roundTo, rndHalfEven]
  have heD : scoreBranch Side.black (maxGames [brC1e, brC1d])
      (prefsBlack.banned_branch_keywords.map toLowerS) prefsBlack
      (weightsOf prefsBlack.risk) rptC1.blunders brC1d = bsC1d := by
    have hmax : maxGames [brC1e, brC1d] = 4 := by decide
    rw [hmax]
    simp only [scoreBranch, hwkD, hbanD, hfitD, Bool.false_eq_true,
      if_false, if_true, ite_true, ite_false]
    simp [brC1d, bsC1d, weightsOf, prefsBlack, defaultPrefs]
    norm_num [roundTo, rndHalfEven]
  rw [List.map_cons, List.map_cons, List.map_nil, heE, heD]
  norm_num [sortStableDesc, insertByGe, bsC1e, bsC1d]

theorem score_branches_rptC3X :
    score_branches rptC3X prefsBlack = [bsC3X] := by
  rw [score_branches_single_group rptC3X prefsBlack Side.black [brC3X]
    (by decide) (by decide) (by decide)]
  have he : scoreBranch Side.black (maxGames [brC3X])
      (prefsBlack.banned_branch_keywords.map toLowerS) prefsBlack
      (weightsOf prefsBlack.risk) rptC3X.blunders brC3X = bsC3X := by
    have hmax : maxGames [brC3X] = 5 := by decide
    rw [hmax]
    simp [scoreBranch, weightsOf, brC3X, bsC3X, weaknessForBranch,
      weaknessMatching, isBanned, movesBanned, fitsRepertoire, movesFit,
      prefsBlack, defaultPrefs, rptC3X, emptyReport]
    norm_num [roundTo, rndHalfEven]
  rw [List.map_cons, List.map_nil, he]
  norm_num [sortStableDesc, insertByGe]

theorem score_branches_rptC3A :
    score_branches rptC3A prefsBanC5 = [bsC3A] := by
  rw [score_branches_single_group rptC3A prefsBanC5 Side.white [brC3A]
    (by decide) (by decide) (by decide)]
  have hban : isBanned brC3A (prefsBanC5.banned_branch_keywords.map toLowerS)
      = true := by decide
  have hwk : weaknessForBranch (stripS (joinSpace brC3A.moves_san))
      Side.white brC3A.games rptC3A.blunders = (0, 0, 0) := by decide
  have he : scoreBranch Side.white (maxGames [brC3A])
      (prefsBanC5.banned_branch_keywords.map toLowerS) prefsBanC5
      (weightsOf prefsBanC5.risk) rptC3A.blunders brC3A = bsC3A := by
    have hmax : maxGames [brC3A] = 15 := by decide
    rw [hmax]
    simp only [scoreBranch, hwk, hban, if_true, ite_true]
    simp [brC3A, bsC3A, weightsOf, prefsBanC5, defaultPrefs]
    norm_num [roundTo, rndHalfEven]
  rw [List.map_cons, List.map_nil, he]
  norm_num [sortStableDesc, insertByGe]

theorem score_branches_rptC3B :
    score_branches rptC3B prefsWhite = [bsC3B] := by
  rw [score_branches_single_group rptC3B prefsWhite Side.white [brC3B]
    (by decide) (by decide) (by decide)]
  have he : scoreBranch Side.white (maxGames [brC3B])
      (prefsWhite.banned_branch_keywords.map toLowerS) prefsWhite
      (weightsOf prefsWhite.risk) rptC3B.blunders brC3B = bsC3B := by
    have hmax : maxGames [brC3B] = 7 := by decide
    rw [hmax]
    simp [scoreBranch, weightsOf, brC3B, bsC3B, weaknessForBranch,
      weaknessMatching, isBanned, movesBanned, fitsRepertoire, movesFit,
      prefsWhite, defaultPrefs, rptC3B, emptyReport]
    norm_num [roundTo, rndHalfEven]
  rw [List.map_cons, List.map_nil, he]
  norm_num [sortStableDesc, insertByGe]

theorem score_branches_rptC3C :
    score_branches rptC3C prefsBlack = [bsC3C] := by
  rw [score_branches_single_group rptC3C prefsBlack Side.black [brC3C]
    (by decide) (by decide) (by decide)]
  have hfit : fitsRepertoire brC3C Side.black prefsBlack = true := by decide
  have hban : isBanned brC3C (prefsBlack.banned_branch_keywords.map toLowerS)
      = false := by decide
  have hwk : weaknessForBranch (stripS (joinSpace brC3C.moves_san))
      Side.black brC3C.games rptC3C.blunders = (0, 0, 0) := by decide
  have he : scoreBranch Side.black (maxGames [brC3C])
      (prefsBlack.banned_branch_keywords.map toLowerS) prefsBlack
      (weightsOf prefsBlack.risk) rptC3C.blunders brC3C = bsC3C := by
    have hmax : maxGames [brC3C] = 10 := by decide
    rw [hmax]
    simp only [scoreBranch, hwk, hban, hfit, Bool.false_eq_true,
      if_false, if_true, ite_true, ite_false]
    simp [brC3C, bsC3C, weightsOf, prefsBlack, defaultPrefs]
    norm_num [roundTo, rndHalfEven]
  rw [List.map_cons, List.map_nil, he]
  norm_num [sortStableDesc, insertByGe]

/-- **C1**, counterexample to the claim as stated: `rptC1` has exactly
one branch (2 games) in the opponent-as-Black-vs-e4 bucket and one
branch (4 games) in the vs-d4 bucket.  Per the claim's three-bucket
reading, each is the most-played branch of its own bucket and must
score frequency 1.0; `score_branches` instead merges the two Black
buckets before taking the maximum, giving the e4 branch `2/4 = 1/2`. -/
theorem c1_counterexample :
    (score_branches rptC1 prefsBlack).map
        (fun bs => (bs.branch_moves_san, bs.frequency_score))
      = [([strL "d4", strL "d5"], 1), ([strL "e4", strL "c5"], (1/2 : ℚ))]
    ∧ ((1/2 : ℚ) ≠ 1) := by
  constructor
  · rw [score_branches_rptC1]
    simp [bsC1d, bsC1e]
  · norm_num

/-- **C1** (amended): the frequency score of every scored branch equals
its game count divided by the maximum game count among the branches of
its scoring *group* — opponent-as-White, or the two opponent-as-Black
buckets merged — rounded to 4 decimals; the group's most-played branch
scores exactly 1, a branch with half the group maximum scores exactly
1/2, and when the group maximum is 0 every branch scores 0. -/
theorem c1_frequency_spec
    (r₁ : PrepReport) (p₁ : PrepPrefs) (bs₁ : BranchScore)
    (h₁ : bs₁ ∈ score_branches r₁ p₁)
    (r₂ : PrepReport) (p₂ : PrepPrefs) (bs₂ : BranchScore)
    (h₂ : bs₂ ∈ score_branches r₂ p₂)
    (hmax : bs₂.games = maxGames (groupBranches r₂ bs₂.opponent_side))
    (hpos : 0 < maxGames (groupBranches r₂ bs₂.opponent_side))
    (r₃ : PrepReport) (p₃ : PrepPrefs) (bs₃ : BranchScore)
    (h₃ : bs₃ ∈ score_branches r₃ p₃)
    (hhalf : 2 * bs₃.games = maxGames (groupBranches r₃ bs₃.opponent_side))
    (hgpos : 0 < bs₃.games)
    (r₄ : PrepReport) (p₄ : PrepPrefs) (bs₄ : BranchScore)
    (h₄ : bs₄ ∈ score_branches r₄ p₄)
    (hz : maxGames (groupBranches r₄ bs₄.opponent_side) = 0) :
    bs₁.frequency_score = roundTo 4
      (if 0 < maxGames (groupBranches r₁ bs₁.opponent_side) then
        (bs₁.games : ℚ) / (maxGames (groupBranches r₁ bs₁.opponent_side) : ℚ)
       else 0)
    ∧ bs₂.frequency_score = 1
    ∧ bs₃.frequency_score = 1/2
    ∧ bs₄.frequency_score = 0 := by
  refine ⟨score_branches_frequency r₁ p₁ bs₁ h₁, ?_, ?_, ?_⟩
  · rw [score_branches_frequency r₂ p₂ bs₂ h₂, if_pos hpos, ← hmax]
    have hg2 : 0 < bs₂.games := hmax ▸ hpos
    have hne2 : (bs₂.games : ℚ) ≠ 0 := by exact_mod_cast hg2.ne'
    rw [div_self hne2]
    exact roundTo4_one
  · rw [score_branches_frequency r₃ p₃ bs₃ h₃, if_pos (by omega), ← hhalf]
    have hne : (bs₃.games : ℚ) ≠ 0 := by exact_mod_cast hgpos.ne'
    have hdiv : (bs₃.games : ℚ) / ((2 * bs₃.games : ℕ) : ℚ) = 1/2 := by
      push_cast
      rw [div_eq_div_iff (by positivity) (by norm_num)]
      ring
    rw [hdiv]
    exact roundTo4_half
  · rw [score_branches_frequency r₄ p₄ bs₄ h₄, if_neg (by omega)]
    exact roundTo4_zero

/-- **C1** witness: on `rptC1w` the 20-game branch (the group maximum)
scores 1, the 10-game branch scores 1/2, and on `rptC1z` the zero-game
branch scores 0. -/
theorem c1_witness :
    bsC1a.frequency_score = roundTo 4
      (if 0 < maxGames (groupBranches rptC1w bsC1a.opponent_side) then
        (bsC1a.games : ℚ) / (maxGames (groupBranches rptC1w bsC1a.opponent_side) : ℚ)
       else 0)
    ∧ bsC1a.frequency_score = 1
    ∧ bsC1b.frequency_score = 1/2
    ∧ bsC1z.frequency_score = 0 :=
  c1_frequency_spec
    rptC1w prefsWhite bsC1a (by rw [score_branches_rptC1w]; simp)
    rptC1w prefsWhite bsC1a (by rw [score_branches_rptC1w]; simp)
      (by decide) (by decide)
    rptC1w prefsWhite bsC1b (by rw [score_branches_rptC1w]; simp)
      (by decide) (by decide)
    rptC1z prefsWhite bsC1z (by rw [score_branches_rptC1z]; simp)
      (by decide)

/-! ### Claim C3 -/

/-- **C3**, counterexample to the claim as stated: a scored
opponent-as-Black branch with an *empty* move list gets fit score 1
although it has no first move matching any declared White first move
(the claimed "fit is 1 iff the first move matches" fails on it). -/
theorem c3_counterexample :
    (score_branches rptC3X prefsBlack).map
        (fun bs => (bs.branch_moves_san, bs.fit_score))
      = [(([] : List Str), (1:ℚ))]
    ∧ firstMoveMatches [] (prefsBlack.normalize.as_white_first_moves) = false := by
  constructor
  · rw [score_branches_rptC3X]
    simp [bsC3X]
  · decide

/-- **C3** (amended): for every scored branch, fit is 0 whenever the
branch's move-sequence text contains a banned keyword
(case-insensitively); otherwise, when the opponent is scored as White,
fit is 1; and when the opponent is scored as Black, fit is 1 iff the
branch's move list is empty (vacuous fit, the edge the counterexample
exhibits) or its first move matches one of the user's declared White
first moves by case-insensitive prefix. -/
theorem c3_fit_spec
    (rA : PrepReport) (pA : PrepPrefs) (bsA : BranchScore)
    (hA : bsA ∈ score_branches rA pA)
    (hbA : movesBanned bsA.branch_moves_san
      (pA.normalize.banned_branch_keywords.map toLowerS) = true)
    (rB : PrepReport) (pB : PrepPrefs) (bsB : BranchScore)
    (hB : bsB ∈ score_branches rB pB)
    (hbB : movesBanned bsB.branch_moves_san
      (pB.normalize.banned_branch_keywords.map toLowerS) = false)
    (hwB : bsB.opponent_side = Side.white)
    (rC : PrepReport) (pC : PrepPrefs) (bsC : BranchScore)
    (hC : bsC ∈ score_branches rC pC)
    (hbC : movesBanned bsC.branch_moves_san
      (pC.normalize.banned_branch_keywords.map toLowerS) = false)
    (hblC : bsC.opponent_side = Side.black) :
    bsA.fit_score = 0
    ∧ bsB.fit_score = 1
    ∧ (bsC.fit_score = 1 ↔
        (bsC.branch_moves_san = [] ∨
          firstMoveMatches bsC.branch_moves_san
            pC.normalize.as_white_first_moves = true)) := by
  refine ⟨?_, ?_, ?_⟩
  · rw [score_branches_fit rA pA bsA hA, if_pos hbA]
  · rw [score_branches_fit rB pB bsB hB, if_neg (by simp [hbB]), hwB,
      if_pos (movesFit_white bsB.branch_moves_san pB.normalize)]
  · rw [score_branches_fit rC pC bsC hC, if_neg (by simp [hbC]), hblC,
      ← movesFit_black_iff bsC.branch_moves_san pC.normalize]
    by_cases hf : movesFit bsC.branch_moves_san Side.black pC.normalize = true
    · simp [hf]
    · simp [hf]

/-- **C3** witness: the banned branch of `rptC3A` has fit 0, the
opponent-as-White branch of `rptC3B` has fit 1, and the
opponent-as-Black branch `e4 c5` of `rptC3C` has fit 1 matching the
declared first move `e4`. -/
theorem c3_witness :
    bsC3A.fit_score = 0
    ∧ bsC3B.fit_score = 1
    ∧ (bsC3C.fit_score = 1 ↔
        (bsC3C.branch_moves_san = [] ∨
          firstMoveMatches bsC3C.branch_moves_san
            prefsBlack.normalize.as_white_first_moves = true)) :=
  c3_fit_spec
    rptC3A prefsBanC5 bsC3A (by rw [score_branches_rptC3A]; simp) (by decide)
    rptC3B prefsWhite bsC3B (by rw [score_branches_rptC3B]; simp) (by decide)
      (by decide)
    rptC3C prefsBlack bsC3C (by rw [score_branches_rptC3C]; simp) (by decide)
      (by decide)

/-! # Claim C9 — order-(in)dependence of `build_opening_profile` -/

theorem statsFold_decompose (games : List GameMeta) :
    ∀ (items : List (Str × List Str)) (acc : StatsBuckets),
      items.foldl (bucketInsert games) acc =
        ⟨(whiteItems games items).foldl
            (fun a kp => assocAppendPts a kp.1 kp.2) acc.white,
         (e4Items games items).foldl
            (fun a kp => assocAppendPts a kp.1 kp.2) acc.vs_e4,
         (d4Items games items).foldl
            (fun a kp => assocAppendPts a kp.1 kp.2) acc.vs_d4⟩ := by
  intro items
  induction items with
  | nil =>
    intro acc
    simp [whiteItems, e4Items, d4Items]
  | cons item items ih =>
    intro acc
    rw [List.foldl_cons, ih (bucketInsert games acc item)]
    rcases hmeta : metaById games item.1 with _ | meta
    · simp [whiteItems, e4Items, d4Items, bucketInsert, hmeta,
        List.filterMap_cons]
    · rcases hos : meta.opponent_side with _ | side
      · simp [whiteItems, e4Items, d4Items, bucketInsert, hmeta, hos,
          List.filterMap_cons]
      · rcases side with _ | _
        · simp [whiteItems, e4Items, d4Items, bucketInsert, hmeta, hos,
            List.filterMap_cons]
        · rcases hmv : item.2 with _ | ⟨first, rest⟩
          · simp [whiteItems, e4Items, d4Items, bucketInsert, hmeta, hos,
              hmv, List.filterMap_cons]
          · by_cases he4 : startsWithS first (strL "e4") = true
            · simp [whiteItems, e4Items, d4Items, bucketInsert, hmeta,
                hos, hmv, he4, List.filterMap_cons]
            · by_cases hd4 : startsWithS first (strL "d4") = true
              · simp [whiteItems, e4Items, d4Items, bucketInsert, hmeta,
                  hos, hmv, he4, hd4, List.filterMap_cons]
              · simp [whiteItems, e4Items, d4Items, bucketInsert, hmeta,
                  hos, hmv, he4, hd4, List.filterMap_cons]

/-- The aggregation pass splits into the three independent bucket
dictionaries, each fed its own filtered `(key, points)` stream. -/
theorem statsFold_eq (games : List GameMeta) (items : List (Str × List Str)) :
    statsFold games items =
      ⟨statsOf (whiteItems games items), statsOf (e4Items games items),
       statsOf (d4Items games items)⟩ :=
  statsFold_decompose games items ⟨[], [], []⟩

theorem statsOf_append (s : List (List Str × ℚ)) (kp : List Str × ℚ) :
    statsOf (s ++ [kp]) = assocAppendPts (statsOf s) kp.1 kp.2 := by
  simp [statsOf, List.foldl_append]

theorem assocAppendPts_keys (s : List (List Str × List ℚ)) (k : List Str)
    (p : ℚ) :
    (assocAppendPts s k p).map Prod.fst =
      (if k ∈ s.map Prod.fst then s.map Prod.fst
       else s.map Prod.fst ++ [k]) := by
  induction s with
  | nil => simp [assocAppendPts]
  | cons kv rest ih =>
    obtain ⟨k₀, vs⟩ := kv
    by_cases hk : k₀ = k
    · subst hk
      simp [assocAppendPts]
    · rw [show assocAppendPts ((k₀, vs) :: rest) k p =
        (k₀, vs) :: assocAppendPts rest k p by simp [assocAppendPts, hk]]
      by_cases hmem : k ∈ rest.map Prod.fst
      · simp [ih, hmem]
      · have hne : ¬ k ∈ ((k₀, vs) :: rest).map Prod.fst := by
          simp [hmem]
          intro hkk
          exact hk hkk.symm
        simp only [List.map_cons, ih, if_neg hmem]
        rw [if_neg (by simpa using hne)]
        simp

theorem statsOf_keys_nodup (stream : List (List Str × ℚ)) :
    ((statsOf stream).map Prod.fst).Nodup := by
  induction stream using List.reverseRecOn with
  | nil => simp [statsOf]
  | append_singleton s kp ih =>
    rw [statsOf_append, assocAppendPts_keys]
    by_cases hmem : kp.1 ∈ (statsOf s).map Prod.fst
    · rw [if_pos hmem]
      exact ih
    · rw [if_neg hmem]
      simp [List.nodup_append, ih, hmem]

theorem assocFindPts_append (s : List (List Str × List ℚ)) (k : List Str)
    (p : ℚ) (k' : List Str) :
    assocFindPts (assocAppendPts s k p) k' =
      (if k' = k then some ((assocFindPts s k).getD [] ++ [p])
       else assocFindPts s k') := by
  induction s with
  | nil =>
    by_cases h : k' = k
    · subst h
      simp [assocAppendPts, assocFindPts]
    · simp [assocAppendPts, assocFindPts, h, Ne.symm h]
  | cons kv rest ih =>
    obtain ⟨k₀, vs⟩ := kv
    by_cases h0 : k₀ = k
    · subst h0
      by_cases h : k' = k₀
      · subst h
        simp [assocAppendPts, assocFindPts]
      · simp [assocAppendPts, assocFindPts, h, Ne.symm h]
    · rw [show assocAppendPts ((k₀, vs) :: rest) k p =
        (k₀, vs) :: assocAppendPts rest k p by simp [assocAppendPts, h0]]
      by_cases h : k' = k₀
      · subst h
        simp [assocFindPts, h0]
      · have e1 : assocFindPts ((k₀, vs) :: assocAppendPts rest k p) k' =
            assocFindPts (assocAppendPts rest k p) k' := by
          simp [assocFindPts, List.find?_cons_of_neg,
            show ¬ (k₀ = k') from fun hh => h hh.symm]
        have e2 : assocFindPts ((k₀, vs) :: rest) k' = assocFindPts rest k' := by
          simp [assocFindPts, List.find?_cons_of_neg,
            show ¬ (k₀ = k') from fun hh => h hh.symm]
        rw [e1, ih]
        by_cases hk' : k' = k
        · have e3 : assocFindPts ((k₀, vs) :: rest) k = assocFindPts rest k := by
            simp [assocFindPts, List.find?_cons_of_neg,
              show ¬ (k₀ = k) from h0]
          simp [hk', e3]
        · simp [hk', e2]

theorem assoc_mem_find (s : List (List Str × List ℚ))
    (hnd : (s.map Prod.fst).Nodup) (kv : List Str × List ℚ) (hm : kv ∈ s) :
    s.find? (fun e => decide (e.1 = kv.1)) = some kv := by
  induction s with
  | nil => simp at hm
  | cons a rest ih =>
    rw [List.map_cons] at hnd
    have hnda := List.nodup_cons.mp hnd
    rcases List.mem_cons.mp hm with rfl | hm
    · rw [List.find?_cons_of_pos _ (by simp)]
    · have ha : ¬ (a.1 = kv.1) := by
        intro hc
        exact hnda.1 (hc ▸ List.mem_map_of_mem Prod.fst hm)
      rw [List.find?_cons_of_neg _ (by simp [ha])]
      exact ih hnda.2 hm

theorem keyPoints_append (s : List (List Str × ℚ)) (kp : List Str × ℚ)
    (k : List Str) :
    keyPoints (s ++ [kp]) k =
      keyPoints s k ++ (if kp.1 = k then [kp.2] else []) := by
  by_cases h : kp.1 = k <;> simp [keyPoints, List.filter_append, h]

theorem assocFindPts_statsOf (stream : List (List Str × ℚ)) (k : List Str) :
    assocFindPts (statsOf stream) k =
      (if keyPoints stream k = [] then none else some (keyPoints stream k)) := by
  induction stream using List.reverseRecOn with
  | nil => simp [statsOf, assocFindPts, keyPoints]
  | append_singleton s kp ih =>
    rw [statsOf_append, assocFindPts_append, keyPoints_append]
    by_cases h : k = kp.1
    · rw [if_pos h, ← h, ih]
      by_cases hz : keyPoints s k = []
      · simp [hz]
      · simp [hz]
    · have hne : ¬ (kp.1 = k) := fun hh => h hh.symm
      rw [if_neg h, if_neg hne]
      simp [ih]

/-- Each dictionary entry of a replayed bucket stream records exactly
the stream's points for its key, in stream order. -/
theorem statsOf_entry (stream : List (List Str × ℚ)) (kv : List Str × List ℚ)
    (h : kv ∈ statsOf stream) : kv.2 = keyPoints stream kv.1 := by
  have hf := assoc_mem_find (statsOf stream) (statsOf_keys_nodup stream) kv h
  have hc := assocFindPts_statsOf stream kv.1
  rw [assocFindPts, hf] at hc
  by_cases hz : keyPoints stream kv.1 = []
  · rw [if_pos hz] at hc
    simp at hc
  · rw [if_neg hz] at hc
    simpa using hc

theorem find?_congr_of_perm {α : Type} (p : α → Bool) (l₁ l₂ : List α)
    (h : List.Perm l₁ l₂)
    (huniq : ∀ a ∈ l₁, ∀ b ∈ l₁, p a = true → p b = true → a = b) :
    l₁.find? p = l₂.find? p := by
  rcases hf : l₁.find? p with _ | a
  · have hnone : ∀ x ∈ l₂, ¬ p x = true := by
      intro x hx
      exact List.find?_eq_none.mp hf x (h.mem_iff.mpr hx)
    exact (List.find?_eq_none.mpr hnone).symm
  · have ha : a ∈ l₁ := List.mem_of_find?_eq_some hf
    have hpa : p a = true := List.find?_some hf
    have hsome : (l₂.find? p).isSome := by
      rw [List.find?_isSome]
      exact ⟨a, h.mem_iff.mp ha, hpa⟩
    rcases hf₂ : l₂.find? p with _ | b
    · rw [hf₂] at hsome
      simp at hsome
    · have hb : b ∈ l₁ := h.mem_iff.mpr (List.mem_of_find?_eq_some hf₂)
      have hpb : p b = true := List.find?_some hf₂
      rw [huniq a ha b hb hpa hpb]

/-- With duplicate-free game ids, the last-binding-wins lookup of
`meta_by_id` is insensitive to the order of the games list. -/
theorem metaById_congr (g₁ g₂ : List GameMeta) (hperm : List.Perm g₁ g₂)
    (hnd : (g₁.map (fun g => g.game_id)).Nodup) (gid : Str) :
    metaById g₁ gid = metaById g₂ gid := by
  unfold metaById
  apply find?_congr_of_perm
  · exact ((List.reverse_perm g₁).trans hperm).trans (List.reverse_perm g₂).symm
  · intro a ha b hb hpa hpb
    have ha' : a ∈ g₁ := (List.reverse_perm g₁).mem_iff.mp ha
    have hb' : b ∈ g₁ := (List.reverse_perm g₁).mem_iff.mp hb
    have hids : a.game_id = b.game_id := by
      have h1 : a.game_id = gid := by simpa using hpa
      have h2 : b.game_id = gid := by simpa using hpb
      rw [h1, h2]
    exact List.inj_on_of_nodup_map hnd ha' hb' hids

theorem whiteItems_congr (g₁ g₂ : List GameMeta)
    (items₁ items₂ : List (Str × List Str))
    (hmeta : ∀ gid, metaById g₁ gid = metaById g₂ gid)
    (hitems : List.Perm items₁ items₂) :
    List.Perm (whiteItems g₁ items₁) (whiteItems g₂ items₂) := by
  have h1 : whiteItems g₁ items₁ = whiteItems g₂ items₁ := by
    unfold whiteItems
    simp only [hmeta]
  rw [h1]
  exact hitems.filterMap _

theorem e4Items_congr (g₁ g₂ : List GameMeta)
    (items₁ items₂ : List (Str × List Str))
    (hmeta : ∀ gid, metaById g₁ gid = metaById g₂ gid)
    (hitems : List.Perm items₁ items₂) :
    List.Perm (e4Items g₁ items₁) (e4Items g₂ items₂) := by
  have h1 : e4Items g₁ items₁ = e4Items g₂ items₁ := by
    unfold e4Items
    simp only [hmeta]
  rw [h1]
  exact hitems.filterMap _

theorem d4Items_congr (g₁ g₂ : List GameMeta)
    (items₁ items₂ : List (Str × List Str))
    (hmeta : ∀ gid, metaById g₁ gid = metaById g₂ gid)
    (hitems : List.Perm items₁ items₂) :
    List.Perm (d4Items g₁ items₁) (d4Items g₂ items₂) := by
  have h1 : d4Items g₁ items₁ = d4Items g₂ items₁ := by
    unfold d4Items
    simp only [hmeta]
  rw [h1]
  exact hitems.filterMap _

theorem keyPoints_perm (s₁ s₂ : List (List Str × ℚ))
    (h : List.Perm s₁ s₂) (k : List Str) :
    List.Perm (keyPoints s₁ k) (keyPoints s₂ k) :=
  (h.filter _).map _

/-- Every entry of a `top_list` is the statistic of one dictionary
entry of the bucket. -/
theorem top_list_mem (stats : List (List Str × List ℚ)) (side : Side)
    (topn : ℕ) (st : OpeningBranchStat) (h : st ∈ top_list stats side topn) :
    ∃ kv ∈ stats,
      st = { side := side, moves_san := kv.1, games := kv.2.length,
             score := kv.2.sum / ((max 1 kv.2.length : ℕ) : ℚ) } := by
  unfold top_list at h
  have h' := List.take_subset _ _ h
  rw [mem_sortStableDesc, List.mem_map] at h'
  obtain ⟨kv, hkv, hst⟩ := h'
  exact ⟨kv, hkv, hst.symm⟩

theorem build_opening_profile_white (games : List GameMeta)
    (plies : List PlyRecord) (cfg : PrepConfig) :
    (build_opening_profile games plies cfg).as_white_top =
      top_list (statsFold games (branchMovesByGame plies cfg.opening_plies)).white
        Side.white 10 := rfl

theorem profile_AB_white :
    (build_opening_profile [gmA, gmB] [plA, plB] defaultConfig).as_white_top
      = [stC9a, stC9b] := by
  rw [build_opening_profile_white]
  have hitems : branchMovesByGame [plA, plB] defaultConfig.opening_plies =
      [(strL "ga", [strL "e4"]), (strL "gb", [strL "d4"])] := by decide
  have hstats : (statsFold [gmA, gmB]
      [(strL "ga", [strL "e4"]), (strL "gb", [strL "d4"])]).white =
      [([strL "e4"], [1]), ([strL "d4"], [1])] := by decide
  rw [hitems, hstats]
  norm_num [top_list, sortStableDesc, insertByGe, stC9a, stC9b]

theorem profile_BA_white :
    (build_opening_profile [gmB, gmA] [plB, plA] defaultConfig).as_white_top
      = [stC9b, stC9a] := by
  rw [build_opening_profile_white]
  have hitems : branchMovesByGame [plB, plA] defaultConfig.opening_plies =
      [(strL "gb", [strL "d4"]), (strL "ga", [strL "e4"])] := by decide
  have hstats : (statsFold [gmB, gmA]
      [(strL "gb", [strL "d4"]), (strL "ga", [strL "e4"])]).white =
      [([strL "d4"], [1]), ([strL "e4"], [1])] := by decide
  rw [hitems, hstats]
  norm_num [top_list, sortStableDesc, insertByGe, stC9a, stC9b]

theorem build_opening_profile_e4 (games : List GameMeta)
    (plies : List PlyRecord) (cfg : PrepConfig) :
    (build_opening_profile games plies cfg).as_black_vs_e4_top =
      top_list (statsFold games (branchMovesByGame plies cfg.opening_plies)).vs_e4
        Side.black 10 := rfl

theorem build_opening_profile_d4 (games : List GameMeta)
    (plies : List PlyRecord) (cfg : PrepConfig) :
    (build_opening_profile games plies cfg).as_black_vs_d4_top =
      top_list (statsFold games (branchMovesByGame plies cfg.opening_plies)).vs_d4
        Side.black 10 := rfl

theorem profile_C_e4 :
    (build_opening_profile [gmC] [plC] defaultConfig).as_black_vs_e4_top
      = [stC9c] := by
  rw [build_opening_profile_e4]
  have hitems : branchMovesByGame [plC] defaultConfig.opening_plies =
      [(strL "gc", [strL "e4"])] := by decide
  have hstats : (statsFold [gmC] [(strL "gc", [strL "e4"])]).vs_e4 =
      [([strL "e4"], [1])] := by decide
  rw [hitems, hstats]
  norm_num [top_list, sortStableDesc, insertByGe, stC9c]

theorem profile_D_d4 :
    (build_opening_profile [gmD] [plD] defaultConfig).as_black_vs_d4_top
      = [stC9d] := by
  rw [build_opening_profile_d4]
  have hitems : branchMovesByGame [plD] defaultConfig.opening_plies =
      [(strL "gd", [strL "d4"])] := by decide
  have hstats : (statsFold [gmD] [(strL "gd", [strL "d4"])]).vs_d4 =
      [([strL "d4"], [1])] := by decide
  rw [hitems, hstats]
  norm_num [top_list, sortStableDesc, insertByGe, stC9d]

/-- **C9**, counterexample to the claim as stated: swapping two games
with identical `(games, score)` statistics (and permuting their plies
accordingly) reorders the ranked opponent-as-White list, because the
stable sort breaks the tie by dictionary-insertion order, which follows
input-game order.  The two runs return different ranked lists. -/
theorem c9_counterexample :
    (build_opening_profile [gmA, gmB] [plA, plB] defaultConfig).as_white_top.map
        (fun st => st.moves_san) = [[strL "e4"], [strL "d4"]]
    ∧ (build_opening_profile [gmB, gmA] [plB, plA] defaultConfig).as_white_top.map
        (fun st => st.moves_san) = [[strL "d4"], [strL "e4"]]
    ∧ ([[strL "e4"], [strL "d4"]] : List (List Str)) ≠ [[strL "d4"], [strL "e4"]] := by
  refine ⟨?_, ?_, by decide⟩
  · rw [profile_AB_white]
    simp [stC9a, stC9b]
  · rw [profile_BA_white]
    simp [stC9a, stC9b]

/-- **C9** (amended): under a permutation of the games list (with
duplicate-free game ids and the per-game move-list dictionary permuted
accordingly), the *aggregate statistics are order-invariant*: for every
branch key, the game count and point sum recorded in each of the three
buckets are unchanged; and every statistic reported in each of the
three ranked lists — opponent as White, opponent as Black vs `1.e4`,
and opponent as Black vs `1.d4` — carries exactly its key's game count
and points-average.  Only the *order* of branches tied on
`(games, score)` — and through it the top-10 cut — can differ, as the
counterexample shows. -/
theorem c9_aggregation_invariant
    (games₁ games₂ : List GameMeta) (plies₁ plies₂ : List PlyRecord)
    (cfg : PrepConfig) (k : List Str)
    (hg : List.Perm games₁ games₂)
    (hnd : (games₁.map (fun g => g.game_id)).Nodup)
    (hb : List.Perm (branchMovesByGame plies₁ cfg.opening_plies)
      (branchMovesByGame plies₂ cfg.opening_plies))
    (rWg : List GameMeta) (rWp : List PlyRecord) (cfgW : PrepConfig)
    (stW : OpeningBranchStat)
    (hstW : stW ∈ (build_opening_profile rWg rWp cfgW).as_white_top)
    (rEg : List GameMeta) (rEp : List PlyRecord) (cfgE : PrepConfig)
    (stE : OpeningBranchStat)
    (hstE : stE ∈ (build_opening_profile rEg rEp cfgE).as_black_vs_e4_top)
    (rDg : List GameMeta) (rDp : List PlyRecord) (cfgD : PrepConfig)
    (stD : OpeningBranchStat)
    (hstD : stD ∈ (build_opening_profile rDg rDp cfgD).as_black_vs_d4_top) :
    (keyPoints (whiteItems games₂ (branchMovesByGame plies₂ cfg.opening_plies)) k).length
      = (keyPoints (whiteItems games₁ (branchMovesByGame plies₁ cfg.opening_plies)) k).length
    ∧ (keyPoints (whiteItems games₂ (branchMovesByGame plies₂ cfg.opening_plies)) k).sum
      = (keyPoints (whiteItems games₁ (branchMovesByGame plies₁ cfg.opening_plies)) k).sum
    ∧ (keyPoints (e4Items games₂ (branchMovesByGame plies₂ cfg.opening_plies)) k).length
      = (keyPoints (e4Items games₁ (branchMovesByGame plies₁ cfg.opening_plies)) k).length
    ∧ (keyPoints (e4Items games₂ (branchMovesByGame plies₂ cfg.opening_plies)) k).sum
      = (keyPoints (e4Items games₁ (branchMovesByGame plies₁ cfg.opening_plies)) k).sum
    ∧ (keyPoints (d4Items games₂ (branchMovesByGame plies₂ cfg.opening_plies)) k).length
      = (keyPoints (d4Items games₁ (branchMovesByGame plies₁ cfg.opening_plies)) k).length
    ∧ (keyPoints (d4Items games₂ (branchMovesByGame plies₂ cfg.opening_plies)) k).sum
      = (keyPoints (d4Items games₁ (branchMovesByGame plies₁ cfg.opening_plies)) k).sum
    ∧ stW.games = (keyPoints (whiteItems rWg
        (branchMovesByGame rWp cfgW.opening_plies)) stW.moves_san).length
    ∧ stW.score = (keyPoints (whiteItems rWg
        (branchMovesByGame rWp cfgW.opening_plies)) stW.moves_san).sum
          / ((max 1 stW.games : ℕ) : ℚ)
    ∧ stE.games = (keyPoints (e4Items rEg
        (branchMovesByGame rEp cfgE.opening_plies)) stE.moves_san).length
    ∧ stE.score = (keyPoints (e4Items rEg
        (branchMovesByGame rEp cfgE.opening_plies)) stE.moves_san).sum
          / ((max 1 stE.games : ℕ) : ℚ)
    ∧ stD.games = (keyPoints (d4Items rDg
        (branchMovesByGame rDp cfgD.opening_plies)) stD.moves_san).length
    ∧ stD.score = (keyPoints (d4Items rDg
        (branchMovesByGame rDp cfgD.opening_plies)) stD.moves_san).sum
          / ((max 1 stD.games : ℕ) : ℚ) := by
  have hmeta := metaById_congr games₁ games₂ hg hnd
  have hW := whiteItems_congr games₁ games₂ _ _ hmeta hb
  have hE := e4Items_congr games₁ games₂ _ _ hmeta hb
  have hD := d4Items_congr games₁ games₂ _ _ hmeta hb
  have hWres : stW.games = (keyPoints (whiteItems rWg
        (branchMovesByGame rWp cfgW.opening_plies)) stW.moves_san).length
      ∧ stW.score = (keyPoints (whiteItems rWg
        (branchMovesByGame rWp cfgW.opening_plies)) stW.moves_san).sum
          / ((max 1 stW.games : ℕ) : ℚ) := by
    rw [build_opening_profile_white, statsFold_eq] at hstW
    obtain ⟨kv, hkv, rfl⟩ := top_list_mem _ _ _ _ hstW
    have hentry := statsOf_entry _ kv hkv
    constructor
    · show kv.2.length = _
      rw [hentry]
    · show kv.2.sum / _ = _
      rw [hentry]
  have hEres : stE.games = (keyPoints (e4Items rEg
        (branchMovesByGame rEp cfgE.opening_plies)) stE.moves_san).length
      ∧ stE.score = (keyPoints (e4Items rEg
        (branchMovesByGame rEp cfgE.opening_plies)) stE.moves_san).sum
          / ((max 1 stE.games : ℕ) : ℚ) := by
    rw [build_opening_profile_e4, statsFold_eq] at hstE
    obtain ⟨kv, hkv, rfl⟩ := top_list_mem _ _ _ _ hstE
    have hentry := statsOf_entry _ kv hkv
    constructor
    · show kv.2.length = _
      rw [hentry]
    · show kv.2.sum / _ = _
      rw [hentry]
  have hDres : stD.games = (keyPoints (d4Items rDg
        (branchMovesByGame rDp cfgD.opening_plies)) stD.moves_san).length
      ∧ stD.score = (keyPoints (d4Items rDg
        (branchMovesByGame rDp cfgD.opening_plies)) stD.moves_san).sum
          / ((max 1 stD.games : ℕ) : ℚ) := by
    rw [build_opening_profile_d4, statsFold_eq] at hstD
    obtain ⟨kv, hkv, rfl⟩ := top_list_mem _ _ _ _ hstD
    have hentry := statsOf_entry _ kv hkv
    constructor
    · show kv.2.length = _
      rw [hentry]
    · show kv.2.sum / _ = _
      rw [hentry]
  exact ⟨(keyPoints_perm _ _ hW.symm k).length_eq,
    (keyPoints_perm _ _ hW.symm k).sum_eq,
    (keyPoints_perm _ _ hE.symm k).length_eq,
    (keyPoints_perm _ _ hE.symm k).sum_eq,
    (keyPoints_perm _ _ hD.symm k).length_eq,
    (keyPoints_perm _ _ hD.symm k).sum_eq,
    hWres.1, hWres.2, hEres.1, hEres.2, hDres.1, hDres.2⟩

/-- **C9** witness: swapping the two sample games leaves the per-key
counts and sums of all three buckets unchanged, and the statistics
reported in the three ranked lists on three concrete runs — `e4` as
White, `e4` faced as Black, `d4` faced as Black — each carry their
key's count and average. -/
theorem c9_witness :
    (keyPoints (whiteItems [gmB, gmA] (branchMovesByGame [plB, plA] defaultConfig.opening_plies)) [strL "e4"]).length
      = (keyPoints (whiteItems [gmA, gmB] (branchMovesByGame [plA, plB] defaultConfig.opening_plies)) [strL "e4"]).length
    ∧ (keyPoints (whiteItems [gmB, gmA] (branchMovesByGame [plB, plA] defaultConfig.opening_plies)) [strL "e4"]).sum
      = (keyPoints (whiteItems [gmA, gmB] (branchMovesByGame [plA, plB] defaultConfig.opening_plies)) [strL "e4"]).sum
    ∧ (keyPoints (e4Items [gmB, gmA] (branchMovesByGame [plB, plA] defaultConfig.opening_plies)) [strL "e4"]).length
      = (keyPoints (e4Items [gmA, gmB] (branchMovesByGame [plA, plB] defaultConfig.opening_plies)) [strL "e4"]).length
    ∧ (keyPoints (e4Items [gmB, gmA] (branchMovesByGame [plB, plA] defaultConfig.opening_plies)) [strL "e4"]).sum
      = (keyPoints (e4Items [gmA, gmB] (branchMovesByGame [plA, plB] defaultConfig.opening_plies)) [strL "e4"]).sum
    ∧ (keyPoints (d4Items [gmB, gmA] (branchMovesByGame [plB, plA] defaultConfig.opening_plies)) [strL "e4"]).length
      = (keyPoints (d4Items [gmA, gmB] (branchMovesByGame [plA, plB] defaultConfig.opening_plies)) [strL "e4"]).length
    ∧ (keyPoints (d4Items [gmB, gmA] (branchMovesByGame [plB, plA] defaultConfig.opening_plies)) [strL "e4"]).sum
      = (keyPoints (d4Items [gmA, gmB] (branchMovesByGame [plA, plB] defaultConfig.opening_plies)) [strL "e4"]).sum
    ∧ stC9a.games = (keyPoints (whiteItems [gmA, gmB]
        (branchMovesByGame [plA, plB] defaultConfig.opening_plies)) stC9a.moves_san).length
    ∧ stC9a.score = (keyPoints (whiteItems [gmA, gmB]
        (branchMovesByGame [plA, plB] defaultConfig.opening_plies)) stC9a.moves_san).sum
          / ((max 1 stC9a.games : ℕ) : ℚ)
    ∧ stC9c.games = (keyPoints (e4Items [gmC]
        (branchMovesByGame [plC] defaultConfig.opening_plies)) stC9c.moves_san).length
    ∧ stC9c.score = (keyPoints (e4Items [gmC]
        (branchMovesByGame [plC] defaultConfig.opening_plies)) stC9c.moves_san).sum
          / ((max 1 stC9c.games : ℕ) : ℚ)
    ∧ stC9d.games = (keyPoints (d4Items [gmD]
        (branchMovesByGame [plD] defaultConfig.opening_plies)) stC9d.moves_san).length
    ∧ stC9d.score = (keyPoints (d4Items [gmD]
        (branchMovesByGame [plD] defaultConfig.opening_plies)) stC9d.moves_san).sum
          / ((max 1 stC9d.games : ℕ) : ℚ) :=
  c9_aggregation_invariant [gmA, gmB] [gmB, gmA] [plA, plB] [plB, plA]
    defaultConfig [strL "e4"] (by decide) (by decide) (by decide)
    [gmA, gmB] [plA, plB] defaultConfig stC9a (by rw [profile_AB_white]; simp)
    [gmC] [plC] defaultConfig stC9c (by rw [profile_C_e4]; simp)
    [gmD] [plD] defaultConfig stC9d (by rw [profile_D_d4]; simp)

end PrepAgent
